import Mathlib

/-!
Verification of the ActionSpec core (trakrf/action-spec) against its
natural-language specification.

The development shallowly embeds the Python sources:
- `backend/lambda/functions/spec-parser/change_detector.py` (destructive change
  detection over YAML-derived dict values),
- `backend/lambda/shared/github_client.py` (`fetch_spec_file` with its
  allowlist, path-traversal and rate-limit retry logic),
- `backend/lambda/functions/spec-applier/handler.py` (the `lambda_handler`
  deployment orchestrator and its exception-to-HTTP-status dispatch),
- `overengineered/backend/lambda/shared/spec_parser/parser.py`
  (`SpecParser.parse_yaml` pre-parse security checks).

Python dict values are modelled by the inductive type `Val`; code that can
raise (AttributeError on `.get` of a non-dict, TypeError on unhashable set
members or unordered comparisons) is modelled in `Except String`.
-/

set_option maxHeartbeats 1000000

namespace ActionSpec

/-- A Python value as produced by `yaml.safe_load` on ActionSpec documents:
`None`, booleans, integers, strings, lists and string-keyed dicts. -/
inductive Val where
  | null
  | bool (b : Bool)
  | int (n : Int)
  | str (s : String)
  | list (xs : List Val)
  | dict (fields : List (String × Val))

mutual

/-- Structural equality on `Val` (lists element-wise, dicts entry-wise). -/
def Val.beq : Val → Val → Bool
  | .null, .null => true
  | .bool a, .bool b => a == b
  | .int m, .int n => m == n
  | .str a, .str b => a == b
  | .list xs, .list ys => Val.beqList xs ys
  | .dict d, .dict e => Val.beqDict d e
  | _, _ => false

def Val.beqList : List Val → List Val → Bool
  | [], [] => true
  | x :: xs, y :: ys => Val.beq x y && Val.beqList xs ys
  | _, _ => false

def Val.beqDict : List (String × Val) → List (String × Val) → Bool
  | [], [] => true
  | (k, v) :: d, (k2, w) :: e => k == k2 && Val.beq v w && Val.beqDict d e
  | _, _ => false

end

instance : BEq Val := ⟨Val.beq⟩

/-- Python truthiness (`bool(v)`) for the modelled values: `None`, `False`,
`0`, `""`, `[]` and an empty dict are falsy, everything else is truthy. -/
def Val.truthy : Val → Bool
  | .null => false
  | .bool b => b
  | .int n => n != 0
  | .str s => s != ""
  | .list xs => !xs.isEmpty
  | .dict d => !d.isEmpty

/-- Python `int(b)` for a bool: `True` is `1`, `False` is `0`. -/
def pyInt (b : Bool) : Int := if b then 1 else 0

/-- Python `==` on the modelled values.  The numeric coercion `True == 1`
is modelled at the top level; inside containers equality is structural
(the change detector only ever compares scalar leaf values, and Python dict
equality is order-insensitive only for dicts built with different insertion
orders, which never arise in the detector's comparisons). -/
def pyEq (a b : Val) : Bool :=
  match a, b with
  | .bool x, .int n => pyInt x == n
  | .int n, .bool x => n == pyInt x
  | _, _ => a == b

/-- First-match lookup in a string-keyed dict (Python dicts have no
duplicate keys, so first-match agrees with dict lookup). -/
def lookupStr (d : List (String × Val)) (k : String) : Option Val :=
  match d with
  | [] => none
  | (k2, v) :: rest => if k2 == k then some v else lookupStr rest k

/-- Python `v.get(k, dflt)`: defined on dicts; on any other value the
attribute access raises `AttributeError`. -/
def Val.pyGet : Val → String → Val → Except String Val
  | .dict d, k, dflt => .ok ((lookupStr d k).getD dflt)
  | _, _, _ => .error "AttributeError: object has no attribute get"

mutual

/-- Python `<` on the modelled values: numbers (with bool as 0/1) and strings
compare; lists compare lexicographically element-wise; every other pair
(including `None < None` and dict comparisons) raises `TypeError`. -/
def vlt : Val → Val → Except String Bool
  | .int m, .int n => .ok (decide (m < n))
  | .int m, .bool b => .ok (decide (m < pyInt b))
  | .bool a, .int n => .ok (decide (pyInt a < n))
  | .bool a, .bool b => .ok (decide (pyInt a < pyInt b))
  | .str a, .str b => .ok (decide (a < b))
  | .list xs, .list ys => vltList xs ys
  | _, _ => .error "TypeError: unsupported operand types for comparison"

def vltList : List Val → List Val → Except String Bool
  | [], [] => .ok false
  | [], _ :: _ => .ok true
  | _ :: _, [] => .ok false
  | x :: xs, y :: ys => if pyEq x y then vltList xs ys else vlt x y

end

/-- A value is hashable (usable as a set member or dict key) iff it is not a
list or a dict. -/
def hashable : Val → Bool
  | .list _ => false
  | .dict _ => false
  | _ => true

/-- Deduplication keeping first occurrences, with Python `==` as the
equivalence; `seen` accumulates the members already emitted. -/
def pyDedupAux (seen : List Val) : List Val → List Val
  | [] => []
  | x :: xs =>
      if seen.any (fun y => pyEq y x) then pyDedupAux seen xs
      else x :: pyDedupAux (x :: seen) xs

/-- The contents of the Python set built by iterating `xs`. -/
def pyDedup (xs : List Val) : List Val := pyDedupAux [] xs

/-- Python `set(v)`: iterates lists (members must be hashable), strings
(yielding one-character strings) and dicts (yielding keys); every other
value raises `TypeError: not iterable`. -/
def pySet : Val → Except String (List Val)
  | .list xs =>
      if xs.all hashable then .ok (pyDedup xs)
      else .error "TypeError: unhashable type"
  | .str s => .ok (pyDedup (s.toList.map (fun c => Val.str (String.mk [c]))))
  | .dict d => .ok (pyDedup (d.map (fun kv => Val.str kv.fst)))
  | _ => .error "TypeError: argument is not iterable"

/-- Python set difference `a - b` on set contents. -/
def pySetDiff (a b : List Val) : List Val :=
  a.filter (fun x => !(b.any (fun y => pyEq x y)))

/-- Extract a list of strings from a list of values; `none` when any member
is not a string. -/
def asStrings : List Val → Option (List String)
  | [] => some []
  | .str s :: rest => (asStrings rest).map (fun l => s :: l)
  | _ :: _ => none

/-- Python `sorted` on a list of strings. -/
def pySortStrings (l : List String) : List String :=
  l.mergeSort (fun a b => a ≤ b)

/-- Python `", ".join(sorted(xs))`: succeeds when every member is a string,
otherwise `sorted`/`join` raises `TypeError`. -/
def sortedJoin (xs : List Val) : Except String String :=
  match asStrings xs with
  | some ss => .ok (String.intercalate ", " (pySortStrings ss))
  | none => .error "TypeError: sort or join over non-string members"

/-- Python `str(v)` as interpolated into detector messages.  All reachable
interpolations in the detector apply to scalar configuration values;
container rendering is abbreviated. -/
def pyStr : Val → String
  | .null => "None"
  | .bool b => if b then "True" else "False"
  | .int n => toString n
  | .str s => s
  | .list _ => "<list>"
  | .dict _ => "<dict>"

/-- Warning severity levels (`change_detector.Severity`). -/
inductive Severity where
  | info
  | warning
  | critical
deriving DecidableEq, Repr

/-- The enum's string value (`Severity.INFO.value == "info"` etc.). -/
def Severity.value : Severity → String
  | .info => "info"
  | .warning => "warning"
  | .critical => "critical"

/-- Structured warning with severity and display message
(`change_detector.ChangeWarning`). -/
structure ChangeWarning where
  severity : Severity
  message : String
  field_path : String
deriving DecidableEq, Repr

/-- Model of `SIZE_ORDER.get(v, 0)`: `SIZE_ORDER = {demo: 0, small: 1, medium: 2,
large: 3}` with string keys, so every hashable non-matching key defaults to
0; an unhashable key (list/dict) raises `TypeError`. -/
def sizeOrderGet (v : Val) : Except String Int :=
  match v with
  | .list _ => .error "TypeError: unhashable type"
  | .dict _ => .error "TypeError: unhashable type"
  | .str s =>
      .ok (if s = "demo" then 0 else if s = "small" then 1
           else if s = "medium" then 2 else if s = "large" then 3 else 0)
  | _ => .ok 0

/-- Model of `spec.get("spec", ...).get(key, ...)` with empty-dict defaults: the optional subtree a
category detector operates on. -/
def subtree (v : Val) (key : String) : Except String Val := do
  let s ← v.pyGet "spec" (.dict [])
  s.pyGet key (.dict [])

/-- WAF disabling block of `_check_security_changes`
(change_detector.py lines 73-84). -/
def secWafEnabled (old_waf new_waf : Val) : Except String (List ChangeWarning) := do
  let oldEnabled ← old_waf.pyGet "enabled" .null
  if oldEnabled.truthy then
    let newEnabled ← new_waf.pyGet "enabled" .null
    if !newEnabled.truthy then
      pure [⟨.warning, "⚠️ Disabling WAF will remove security protection",
             "spec.security.waf.enabled"⟩]
    else pure []
  else pure []

/-- WAF mode downgrade block of `_check_security_changes` (lines 86-94). -/
def secWafMode (old_waf new_waf : Val) : Except String (List ChangeWarning) := do
  let oldMode ← old_waf.pyGet "mode" .null
  if pyEq oldMode (.str "block") then
    let newMode ← new_waf.pyGet "mode" .null
    if pyEq newMode (.str "monitor") then
      pure [⟨.warning,
             "⚠️ WAF mode downgrade from \x27block\x27 to \x27monitor\x27 - attacks will be logged but not blocked",
             "spec.security.waf.mode"⟩]
    else pure []
  else pure []

/-- Ruleset reduction block of `_check_security_changes` (lines 96-107). -/
def secRulesets (old_waf new_waf : Val) : Except String (List ChangeWarning) := do
  let old_rules ← pySet (← old_waf.pyGet "rulesets" (.list []))
  let new_rules ← pySet (← new_waf.pyGet "rulesets" (.list []))
  let removed_rules := pySetDiff old_rules new_rules
  if !removed_rules.isEmpty then
    let joined ← sortedJoin removed_rules
    pure [⟨.warning, "⚠️ Removing WAF rulesets: " ++ joined,
           "spec.security.waf.rulesets"⟩]
  else pure []

/-- At-rest half of the encryption disabling block of
`_check_security_changes` (lines 113-120); note the absent-means-enabled
default `old_enc.get("atRest", True)`. -/
def secEncAtRest (old_enc new_enc : Val) : Except String (List ChangeWarning) := do
  let oldAtRest ← old_enc.pyGet "atRest" (.bool true)
  if oldAtRest.truthy then
    let newAtRest ← new_enc.pyGet "atRest" (.bool true)
    if !newAtRest.truthy then
      pure [⟨.warning, "⚠️ Disabling encryption at rest",
             "spec.security.encryption.atRest"⟩]
    else pure []
  else pure []

/-- In-transit half of the encryption disabling block of
`_check_security_changes` (lines 122-129). -/
def secEncInTransit (old_enc new_enc : Val) : Except String (List ChangeWarning) := do
  let oldInTransit ← old_enc.pyGet "inTransit" (.bool true)
  if oldInTransit.truthy then
    let newInTransit ← new_enc.pyGet "inTransit" (.bool true)
    if !newInTransit.truthy then
      pure [⟨.warning, "⚠️ Disabling encryption in transit",
             "spec.security.encryption.inTransit"⟩]
    else pure []
  else pure []

/-- Encryption disabling block of `_check_security_changes` (lines 109-129). -/
def secEncryption (old_sec new_sec : Val) : Except String (List ChangeWarning) := do
  let old_enc ← old_sec.pyGet "encryption" (.dict [])
  let new_enc ← new_sec.pyGet "encryption" (.dict [])
  let w1 ← secEncAtRest old_enc new_enc
  let w2 ← secEncInTransit old_enc new_enc
  pure (w1 ++ w2)

/-- Model of `_check_security_changes` (change_detector.py lines 67-131). -/
def check_security_changes (old_spec new_spec : Val) :
    Except String (List ChangeWarning) := do
  let old_sec ← subtree old_spec "security"
  let new_sec ← subtree new_spec "security"
  let old_waf ← old_sec.pyGet "waf" (.dict [])
  let new_waf ← new_sec.pyGet "waf" (.dict [])
  let w1 ← secWafEnabled old_waf new_waf
  let w2 ← secWafMode old_waf new_waf
  let w3 ← secRulesets old_waf new_waf
  let w4 ← secEncryption old_sec new_sec
  pure (w1 ++ w2 ++ w3 ++ w4)

/-- Size downgrade block of `_check_compute_changes` (lines 144-157). -/
def compSize (old_comp new_comp : Val) : Except String (List ChangeWarning) := do
  let old_size ← old_comp.pyGet "size" .null
  let new_size ← new_comp.pyGet "size" .null
  if old_size.truthy && new_size.truthy then
    let old_order ← sizeOrderGet old_size
    let new_order ← sizeOrderGet new_size
    if new_order < old_order then
      pure [⟨.warning,
             "⚠️ Compute size reduction from \x27" ++ pyStr old_size ++
               "\x27 to \x27" ++ pyStr new_size ++ "\x27 may cause downtime",
             "spec.compute.size"⟩]
    else pure []
  else pure []

/-- Max half of the scaling reduction block of `_check_compute_changes`
(lines 163-172); a falsy bound (such as 0) short-circuits the condition. -/
def compScalingMax (old_scaling new_scaling : Val) : Except String (List ChangeWarning) := do
  let old_max ← old_scaling.pyGet "max" .null
  let new_max ← new_scaling.pyGet "max" .null
  if old_max.truthy && new_max.truthy then
    let lt ← vlt new_max old_max
    if lt then
      pure [⟨.warning,
             "⚠️ Maximum instance count reduced from " ++ pyStr old_max ++
               " to " ++ pyStr new_max,
             "spec.compute.scaling.max"⟩]
    else pure []
  else pure []

/-- Min half of the scaling reduction block of `_check_compute_changes`
(lines 174-183). -/
def compScalingMin (old_scaling new_scaling : Val) : Except String (List ChangeWarning) := do
  let old_min ← old_scaling.pyGet "min" .null
  let new_min ← new_scaling.pyGet "min" .null
  if old_min.truthy && new_min.truthy then
    let lt ← vlt new_min old_min
    if lt then
      pure [⟨.warning,
             "⚠️ Minimum instance count reduced from " ++ pyStr old_min ++
               " to " ++ pyStr new_min,
             "spec.compute.scaling.min"⟩]
    else pure []
  else pure []

/-- Scaling reduction block of `_check_compute_changes` (lines 159-183);
the max check precedes the min check. -/
def compScaling (old_comp new_comp : Val) : Except String (List ChangeWarning) := do
  let old_scaling ← old_comp.pyGet "scaling" (.dict [])
  let new_scaling ← new_comp.pyGet "scaling" (.dict [])
  let w1 ← compScalingMax old_scaling new_scaling
  let w2 ← compScalingMin old_scaling new_scaling
  pure (w1 ++ w2)

/-- Model of `_check_compute_changes` (change_detector.py lines 134-185), with its
early return when either spec lacks a (truthy) compute subtree. -/
def check_compute_changes (old_spec new_spec : Val) :
    Except String (List ChangeWarning) := do
  let old_comp ← subtree old_spec "compute"
  let new_comp ← subtree new_spec "compute"
  if !old_comp.truthy || !new_comp.truthy then
    pure []
  else
    let w1 ← compSize old_comp new_comp
    let w2 ← compScaling old_comp new_comp
    pure (w1 ++ w2)

/-- Engine change/removal block of `_check_data_changes` (lines 198-218). -/
def dataEngine (old_data new_data : Val) : Except String (List ChangeWarning) := do
  let old_engine ← old_data.pyGet "engine" .null
  let new_engine ← new_data.pyGet "engine" .null
  if old_engine.truthy && !pyEq old_engine (.str "none") then
    if pyEq new_engine (.str "none") then
      pure [⟨.critical,
             "🔴 Setting data.engine to \x27none\x27 will DELETE all data (irreversible!)",
             "spec.data.engine"⟩]
    else if new_engine.truthy && !pyEq new_engine old_engine then
      pure [⟨.critical,
             "🔴 Changing data.engine from \x27" ++ pyStr old_engine ++
               "\x27 to \x27" ++ pyStr new_engine ++ "\x27 requires manual data migration",
             "spec.data.engine"⟩]
    else pure []
  else pure []

/-- Size downgrade block of `_check_data_changes` (lines 220-233). -/
def dataSize (old_data new_data : Val) : Except String (List ChangeWarning) := do
  let old_size ← old_data.pyGet "size" .null
  let new_size ← new_data.pyGet "size" .null
  if old_size.truthy && new_size.truthy then
    let old_order ← sizeOrderGet old_size
    let new_order ← sizeOrderGet new_size
    if new_order < old_order then
      pure [⟨.warning,
             "⚠️ Database size reduction from \x27" ++ pyStr old_size ++
               "\x27 to \x27" ++ pyStr new_size ++ "\x27 may require data cleanup",
             "spec.data.size"⟩]
    else pure []
  else pure []

/-- HA disabling block of `_check_data_changes` (lines 235-243). -/
def dataHA (old_data new_data : Val) : Except String (List ChangeWarning) := do
  let oldHA ← old_data.pyGet "highAvailability" .null
  if oldHA.truthy then
    let newHA ← new_data.pyGet "highAvailability" .null
    if !newHA.truthy then
      pure [⟨.warning,
             "⚠️ Disabling high availability - single point of failure introduced",
             "spec.data.highAvailability"⟩]
    else pure []
  else pure []

/-- Backup retention block of `_check_data_changes` (lines 245-255). -/
def dataRetention (old_data new_data : Val) : Except String (List ChangeWarning) := do
  let old_retention ← old_data.pyGet "backupRetention" .null
  let new_retention ← new_data.pyGet "backupRetention" .null
  if old_retention.truthy && new_retention.truthy then
    let lt ← vlt new_retention old_retention
    if lt then
      pure [⟨.warning,
             "⚠️ Backup retention reduced from " ++ pyStr old_retention ++
               " to " ++ pyStr new_retention ++ " days",
             "spec.data.backupRetention"⟩]
    else pure []
  else pure []

/-- Model of `_check_data_changes` (change_detector.py lines 188-257), with its early
return when the old spec lacks a (truthy) data subtree. -/
def check_data_changes (old_spec new_spec : Val) :
    Except String (List ChangeWarning) := do
  let old_data ← subtree old_spec "data"
  let new_data ← subtree new_spec "data"
  if !old_data.truthy then
    pure []
  else
    let w1 ← dataEngine old_data new_data
    let w2 ← dataSize old_data new_data
    let w3 ← dataHA old_data new_data
    let w4 ← dataRetention old_data new_data
    pure (w1 ++ w2 ++ w3 ++ w4)

/-- VPC change block of `_check_network_changes` (lines 270-280). -/
def netVpc (old_net new_net : Val) : Except String (List ChangeWarning) := do
  let old_vpc ← old_net.pyGet "vpc" .null
  let new_vpc ← new_net.pyGet "vpc" .null
  if old_vpc.truthy && new_vpc.truthy && !pyEq old_vpc new_vpc then
    pure [⟨.warning, "⚠️ VPC change requires complete network reconfiguration",
           "spec.network.vpc"⟩]
  else pure []

/-- Public access removal block of `_check_network_changes` (lines 282-290). -/
def netPublic (old_net new_net : Val) : Except String (List ChangeWarning) := do
  let oldAccess ← old_net.pyGet "publicAccess" .null
  if oldAccess.truthy then
    let newAccess ← new_net.pyGet "publicAccess" .null
    if !newAccess.truthy then
      pure [⟨.warning,
             "⚠️ Disabling public access - external connectivity will be lost",
             "spec.network.publicAccess"⟩]
    else pure []
  else pure []

/-- Subnet removal block of `_check_network_changes` (lines 292-303). -/
def netSubnets (old_net new_net : Val) : Except String (List ChangeWarning) := do
  let old_subnets ← pySet (← old_net.pyGet "subnets" (.list []))
  let new_subnets ← pySet (← new_net.pyGet "subnets" (.list []))
  let removed_subnets := pySetDiff old_subnets new_subnets
  if !removed_subnets.isEmpty then
    let joined ← sortedJoin removed_subnets
    pure [⟨.warning, "⚠️ Removing subnets: " ++ joined, "spec.network.subnets"⟩]
  else pure []

/-- Model of `_check_network_changes` (change_detector.py lines 260-305), with its
early return when the old spec lacks a (truthy) network subtree. -/
def check_network_changes (old_spec new_spec : Val) :
    Except String (List ChangeWarning) := do
  let old_net ← subtree old_spec "network"
  let new_net ← subtree new_spec "network"
  if !old_net.truthy then
    pure []
  else
    let w1 ← netVpc old_net new_net
    let w2 ← netPublic old_net new_net
    let w3 ← netSubnets old_net new_net
    pure (w1 ++ w2 ++ w3)

/-- Auto-shutdown enabling block of `_check_governance_changes`
(lines 314-326). -/
def govShutdown (old_gov new_gov : Val) : Except String (List ChangeWarning) := do
  let old_shutdown ← old_gov.pyGet "autoShutdown" (.dict [])
  let new_shutdown ← new_gov.pyGet "autoShutdown" (.dict [])
  let oldEnabled ← old_shutdown.pyGet "enabled" .null
  if !oldEnabled.truthy then
    let newEnabled ← new_shutdown.pyGet "enabled" .null
    if newEnabled.truthy then
      let hours ← new_shutdown.pyGet "afterHours" (.int 24)
      pure [⟨.info,
             "ℹ️ Auto-shutdown enabled: infrastructure will stop after " ++
               pyStr hours ++ " hours of inactivity",
             "spec.governance.autoShutdown.enabled"⟩]
    else pure []
  else pure []

/-- Budget reduction block of `_check_governance_changes` (lines 328-338). -/
def govBudget (old_gov new_gov : Val) : Except String (List ChangeWarning) := do
  let old_budget ← old_gov.pyGet "maxMonthlySpend" .null
  let new_budget ← new_gov.pyGet "maxMonthlySpend" .null
  if old_budget.truthy && new_budget.truthy then
    let lt ← vlt new_budget old_budget
    if lt then
      pure [⟨.info,
             "ℹ️ Monthly budget reduced from $" ++ pyStr old_budget ++
               " to $" ++ pyStr new_budget,
             "spec.governance.maxMonthlySpend"⟩]
    else pure []
  else pure []

/-- Model of `_check_governance_changes` (change_detector.py lines 308-340);
unlike compute/data/network there is no early return on an absent
governance subtree. -/
def check_governance_changes (old_spec new_spec : Val) :
    Except String (List ChangeWarning) := do
  let old_gov ← subtree old_spec "governance"
  let new_gov ← subtree new_spec "governance"
  let w1 ← govShutdown old_gov new_gov
  let w2 ← govBudget old_gov new_gov
  pure (w1 ++ w2)

/-- Model of `check_destructive_changes` (change_detector.py lines 35-64): the five
category detectors in fixed order, outputs concatenated. -/
def check_destructive_changes (old_spec new_spec : Val) :
    Except String (List ChangeWarning) := do
  let w1 ← check_security_changes old_spec new_spec
  let w2 ← check_compute_changes old_spec new_spec
  let w3 ← check_data_changes old_spec new_spec
  let w4 ← check_network_changes old_spec new_spec
  let w5 ← check_governance_changes old_spec new_spec
  pure (w1 ++ w2 ++ w3 ++ w4 ++ w5)

/-! ### GitHub client: `fetch_spec_file` (github_client.py lines 186-279) -/

/-- The GitHub client exception hierarchy (github_client.py lines 30-104);
every constructor except `valueError` models a subclass of `GitHubError`
(`ValueError` is the Python builtin raised on bad repo format / traversal). -/
inductive GhExc where
  | valueError (msg : String)
  | authError (msg : String)
  | repoNotFound (repo : String)
  | fileNotFound (repo path ref : String)
  | rateLimit (retryAfter : Int)
  | gitHubError (msg : String)
deriving DecidableEq, Repr

/-- Outcome reported by the remote API for one iteration of the fetch retry
loop: success, a rate-limit response, a missing repository or file, a
directory at the path, or an unclassified exception. -/
inductive AttemptOutcome where
  | ok (content : String)
  | rateLimited
  | repoMissing
  | fileMissing
  | isDirectory
  | otherError (name msg : String)

/-- Environment of `fetch_spec_file`: the `ALLOWED_REPOS` environment
variable, whether authentication fails, an oracle giving the remote outcome
of each loop iteration, and the remote-reported rate-limit reset delay
(`reset.timestamp() - time.time()`) observed after exhaustion. -/
structure FetchEnv where
  allowedRepos : String
  authFailure : Option String
  attempts : Nat → AttemptOutcome
  resetDelay : Int

/-- Configuration constants (github_client.py lines 25-27). -/
def MAX_RETRIES : Nat := 3

def INITIAL_BACKOFF : Nat := 1

def BACKOFF_MULTIPLIER : Nat := 2

/-- Model of `_validate_repository_whitelist` (github_client.py lines 150-183):
`ValueError` when the name has no "/", allow-all when `ALLOWED_REPOS` is
unset/empty (the logged insecure default), else membership in the
comma-split, stripped list. -/
def validateRepositoryWhitelist (env : FetchEnv) (repoName : String) :
    Except GhExc Unit :=
  if !(repoName.toList.contains '/') then
    .error (.valueError ("Invalid repository format: \x27" ++ repoName ++
      "\x27. Expected format: \x27owner/repo\x27 (e.g., \x27trakrf/action-spec\x27)"))
  else if env.allowedRepos == "" then
    .ok ()
  else
    let allowed := (env.allowedRepos.splitOn ",").map (fun r => r.trim)
    if repoName ∈ allowed then .ok () else .error (.repoNotFound repoName)

/-- The path sanitization condition of `fetch_spec_file` (line 214):
`"../" in file_path or ".\\" in file_path` (the second pattern is the
two-character string dot-backslash). -/
def hasTraversal (p : String) : Bool :=
  decide ("../".toList <:+: p.toList) || decide (".\\".toList <:+: p.toList)

/-- The `for attempt in range(MAX_RETRIES + 1)` retry loop of
`fetch_spec_file` (lines 223-279): `remaining` counts the loop iterations
left (`MAX_RETRIES + 1` at entry) and `attempt` is the current loop index.
Returns the result together with the list of backoff sleeps performed
(`time.sleep(INITIAL_BACKOFF * BACKOFF_MULTIPLIER ** attempt)`).
Only a rate-limit outcome is retried; a rate-limit with no retries left
raises `RateLimitError` carrying `max(reset - now, 0)`; a completed loop
falls through to the line-279 `GitHubError`. -/
def fetchLoop (env : FetchEnv) (repoName filePath ref : String) :
    Nat → Nat → Except GhExc String × List Nat
  | 0, _ =>
      (.error (.gitHubError "Unexpected error in fetch_spec_file retry loop"), [])
  | remaining + 1, attempt =>
    match env.attempts attempt with
    | .ok c => (.ok c, [])
    | .repoMissing => (.error (.repoNotFound repoName), [])
    | .fileMissing => (.error (.fileNotFound repoName filePath ref), [])
    | .isDirectory => (.error (.fileNotFound repoName filePath ref), [])
    | .otherError n m =>
        (.error (.gitHubError ("Failed to fetch file: " ++ n ++ ": " ++ m)), [])
    | .rateLimited =>
        if attempt < MAX_RETRIES then
          let backoff := INITIAL_BACKOFF * BACKOFF_MULTIPLIER ^ attempt
          let r := fetchLoop env repoName filePath ref remaining (attempt + 1)
          (r.1, backoff :: r.2)
        else
          (.error (.rateLimit (max env.resetDelay 0)), [])

/-- Model of `fetch_spec_file` (github_client.py lines 186-279): allowlist check,
path-traversal check, lazy client authentication, then the retry loop. -/
def fetch_spec_file (env : FetchEnv) (repoName filePath ref : String) :
    Except GhExc String × List Nat :=
  match validateRepositoryWhitelist env repoName with
  | .error e => (.error e, [])
  | .ok _ =>
    if hasTraversal filePath then
      (.error (.valueError
        ("Invalid file path (directory traversal detected): " ++ filePath)), [])
    else
      match env.authFailure with
      | some m => (.error (.authError m), [])
      | none => fetchLoop env repoName filePath ref (MAX_RETRIES + 1) 0

/-! ### Deployment orchestrator: `lambda_handler` (spec-applier/handler.py) -/

/-- The Python exceptions the handler can observe, unified in one type.
`ghFileNotFound`, `ghRepoNotFound`, `ghRateLimit`, `ghBranchExists`,
`ghPRExists` and `ghOther` model subclasses of `github_client.GitHubError`;
`validationError`/`parseError` the spec-parser exceptions; the rest are
Python builtins. -/
inductive PyExc where
  | validationError (msg : String)
  | parseError (msg : String)
  | ghFileNotFound (msg : String)
  | ghRepoNotFound (msg : String)
  | ghRateLimit (msg : String)
  | ghBranchExists (msg : String)
  | ghPRExists (msg : String)
  | ghOther (msg : String)
  | builtinFileNotFound (msg : String)
  | valueError (msg : String)
  | keyError (key : String)
  | typeError (msg : String)
  | otherExc (msg : String)
deriving DecidableEq, Repr

/-- Model of `isinstance(e, GitHubError)` (github_client.py lines 30-104: all client
exceptions subclass `GitHubError`). -/
def isGitHubError : PyExc → Bool
  | .ghFileNotFound _ => true
  | .ghRepoNotFound _ => true
  | .ghRateLimit _ => true
  | .ghBranchExists _ => true
  | .ghPRExists _ => true
  | .ghOther _ => true
  | _ => false

/-- Model of `isinstance(e, (ValidationError, ParseError))` (handler.py line 109). -/
def isValidationOrParse : PyExc → Bool
  | .validationError _ => true
  | .parseError _ => true
  | _ => false

/-- Model of `isinstance(e, FileNotFoundError)` at handler.py line 122.
handler.py imports `GitHubError`, `BranchExistsError` and
`PullRequestExistsError` from github_client but never its
`FileNotFoundError`, so the name in the `except` clause is the Python
builtin `FileNotFoundError` (an `OSError`).  The client's
`FileNotFoundError` subclasses `GitHubError`, not the builtin, and is
therefore NOT caught here. -/
def isFileNotFound : PyExc → Bool
  | .builtinFileNotFound _ => true
  | _ => false

/-- Model of `str(e)` for the modelled exceptions (the payload is the formatted
message; `str(KeyError(k))` is the repr-quoted key). -/
def PyExc.toStr : PyExc → String
  | .validationError m => m
  | .parseError m => m
  | .ghFileNotFound m => m
  | .ghRepoNotFound m => m
  | .ghRateLimit m => m
  | .ghBranchExists m => m
  | .ghPRExists m => m
  | .ghOther m => m
  | .builtinFileNotFound m => m
  | .valueError m => m
  | .keyError k => "\x27" ++ k ++ "\x27"
  | .typeError m => m
  | .otherExc m => m

/-- The PR dict returned by `create_pull_request`. -/
structure PrInfo where
  number : Int
  url : String
deriving DecidableEq, Repr

/-- The handler's response: either a failure JSON body
`\x7bsuccess: false, error, details\x7d` with an HTTP status code, or the
200 success body with PR info and serialized warnings. -/
inductive HandlerResp where
  | failure (status : Nat) (error : String) (details : String)
  | success (prUrl : String) (prNumber : Int) (branchName : String)
      (warnings : List ChangeWarning)
deriving DecidableEq, Repr

/-- The `statusCode` of a response (a success body is returned with 200). -/
def HandlerResp.status : HandlerResp → Nat
  | .failure s _ _ => s
  | .success _ _ _ _ => 200

/-- The `success` field of the response body. -/
def HandlerResp.isSuccess : HandlerResp → Bool
  | .failure _ _ _ => false
  | .success _ _ _ _ => true

/-- Environment of one `lambda_handler` invocation: request fields, the
outcome of each collaborator call, and the timestamp/random suffix used for
branch naming.  `missingKey = some k` models a `KeyError` while reading the
request body. -/
structure ApplyEnv where
  missingKey : Option String
  repoName : String
  specPath : String
  parseNew : Except PyExc Val
  fetchOld : Except PyExc String
  parseOld : Except PyExc Val
  createBranch1 : Except PyExc String
  createBranch2 : Except PyExc String
  commitFile : Except PyExc String
  createPR : Except PyExc PrInfo
  addLabels : Except PyExc Unit
  timestamp : Int
  randomSuffix : Int

/-- The outer `except GitHubError / except KeyError / except Exception`
dispatch of `lambda_handler` (handler.py lines 222-257). -/
def outerDispatch (e : PyExc) : HandlerResp :=
  if isGitHubError e then
    .failure 502 "GitHub API error" e.toStr
  else
    match e with
    | .keyError k =>
        .failure 400 "Missing required field"
          ("Required field \x27" ++ k ++ "\x27 not found in request body")
    | _ => .failure 500 "Internal server error" e.toStr

/-- Steps 6-10 of the handler (commit, PR creation with the
`PullRequestExistsError` → 409 special case, non-fatal labels, success
response), reached once a branch exists. -/
def afterBranch (env : ApplyEnv) (warnings : List ChangeWarning)
    (branchName : String) : HandlerResp :=
  match env.commitFile with
  | .error e => outerDispatch e
  | .ok _commitSha =>
    match env.createPR with
    | .error (.ghPRExists _) =>
        .failure 409 "Pull request already exists"
          ("A PR already exists for branch \x27" ++ branchName ++ "\x27")
    | .error e => outerDispatch e
    | .ok pr =>
        -- step 9: add_pr_labels failures are caught and only logged
        .success pr.url pr.number branchName warnings

/-- Model of `lambda_handler` (spec-applier/handler.py lines 60-257): parse request,
validate the new spec (400 on failure), fetch and parse the old spec — the
line-122 `except FileNotFoundError` names the Python builtin (see
`isFileNotFound`), so its 404 branch never fires for the client's
file-not-found exception, which falls to the `GitHubError` handler — run
change detection, create a timestamped branch (one retry with a random
suffix on `BranchExistsError`), commit, open the PR (409 on duplicate),
attach labels (non-fatal), respond. -/
def lambda_handler (env : ApplyEnv) : HandlerResp :=
  match env.missingKey with
  | some k => outerDispatch (.keyError k)
  | none =>
    match env.parseNew with
    | .error e =>
        if isValidationOrParse e then
          .failure 400 "Validation failed" e.toStr
        else outerDispatch e
    | .ok new_spec =>
      let notFound404 : HandlerResp :=
        .failure 404 "Spec file not found"
          ("File \x27" ++ env.specPath ++ "\x27 not found in " ++ env.repoName)
      match env.fetchOld with
      | .error e => if isFileNotFound e then notFound404 else outerDispatch e
      | .ok _old_yaml =>
        match env.parseOld with
        | .error e => if isFileNotFound e then notFound404 else outerDispatch e
        | .ok old_spec =>
          match check_destructive_changes old_spec new_spec with
          | .error m => outerDispatch (.typeError m)
          | .ok warnings =>
            let branchName := "action-spec-update-" ++ toString env.timestamp
            match env.createBranch1 with
            | .ok _sha => afterBranch env warnings branchName
            | .error (.ghBranchExists _) =>
                let branchName2 := branchName ++ "-" ++ toString env.randomSuffix
                (match env.createBranch2 with
                 | .ok _sha => afterBranch env warnings branchName2
                 | .error e2 => outerDispatch e2)
            | .error e => outerDispatch e

/-! ### Schema validator: `SpecParser.parse_yaml`
(overengineered/.../spec_parser/parser.py lines 65-119) -/

/-- Constant `MAX_DOC_SIZE = 1 * 1024 * 1024` (parser.py line 18). -/
def MAX_DOC_SIZE : Nat := 1 * 1024 * 1024

/-- The `dangerous_tags` list (parser.py line 87). -/
def dangerous_tags : List String :=
  ["!!python/object", "!!python/name", "!!python/module"]

/-- Result of `yaml.safe_load`: a value (possibly `None`) or a
`yaml.YAMLError` with an optional problem-mark line. -/
inductive YamlOutcome where
  | ok (v : Val)
  | yamlError (msg : String) (line : Option Nat)

/-- Result of `SpecParser.parse_yaml`: the parsed dict, a `SecurityError`
(with its detected pattern) or a `ParseError`. -/
inductive ParseYamlResult where
  | ok (v : Val)
  | securityError (pattern : String) (msg : String)
  | parseError (msg : String)

/-- Python `tag in yaml_content` substring test. -/
def containsTag (content tag : String) : Bool :=
  decide (tag.toList <:+: content.toList)

/-- Model of `SpecParser.parse_yaml` (parser.py lines 65-119) over an abstract YAML
parser `yamlParse` standing for `yaml.safe_load`: the size check runs first
(`len(yaml_content) > MAX_DOC_SIZE`, Python `len` counting code points),
then the dangerous-tag scan over the raw text in list order, and only then
the parser, whose `None`/non-dict results become `ParseError`s.  The
wall-clock parse-timeout check (lines 100-103) is not modelled. -/
def parse_yaml (yamlParse : String → YamlOutcome) (yaml_content : String) :
    ParseYamlResult :=
  if yaml_content.length > MAX_DOC_SIZE then
    .securityError "oversized"
      ("Document too large (" ++ toString yaml_content.length ++
        " bytes, max " ++ toString MAX_DOC_SIZE ++ ")")
  else
    match dangerous_tags.find? (fun tag => containsTag yaml_content tag) with
    | some tag => .securityError tag "Dangerous YAML tag detected"
    | none =>
      match yamlParse yaml_content with
      | .yamlError m _line => .parseError m
      | .ok .null => .parseError "Empty document"
      | .ok (.dict d) => .ok (.dict d)
      | .ok v => .parseError ("Root must be object, got " ++ pyStr v)

/-! ### Concrete inputs used by individual claims -/

/-- A spec whose `spec.compute.size` is a (truthy, unhashable) list:
`SIZE_ORDER.get` raises `TypeError` on it even when comparing the spec with
itself. -/
def badSelfSpec : Val :=
  .dict [("spec", .dict [("compute", .dict [("size", .list [.str "x"])])])]

/-- An old spec whose `spec` subtree has no `security` key. -/
def c2old : Val := .dict [("spec", .dict [])]

/-- A new spec that sets `spec.security.encryption.atRest` to `False`. -/
def c2new : Val :=
  .dict [("spec", .dict [("security",
    .dict [("encryption", .dict [("atRest", .bool false)])])])]

/-- A spec with only `spec.compute.scaling` min/max bounds. -/
def scalingSpec (mn mx : Int) : Val :=
  .dict [("spec", .dict [("compute",
    .dict [("scaling", .dict [("min", .int mn), ("max", .int mx)])])])]

/-- A spec with only `spec.compute.size`. -/
def computeSizeSpec (s : String) : Val :=
  .dict [("spec", .dict [("compute", .dict [("size", .str s)])])]

/-- A spec with only `spec.data.size`. -/
def dataSizeSpec (s : String) : Val :=
  .dict [("spec", .dict [("data", .dict [("size", .str s)])])]

/-- A spec with only `spec.data.engine`. -/
def dataEngineSpec (v : Val) : Val :=
  .dict [("spec", .dict [("data", .dict [("engine", v)])])]

/-- A spec with only `spec.security.waf.rulesets`, as a list of strings. -/
def rulesetsSpec (l : List String) : Val :=
  .dict [("spec", .dict [("security",
    .dict [("waf", .dict [("rulesets", .list (l.map Val.str))])])])]

/-- A spec with only `spec.network.subnets`, as a list of strings. -/
def subnetsSpec (l : List String) : Val :=
  .dict [("spec", .dict [("network",
    .dict [("subnets", .list (l.map Val.str))])])]

/-- A fetch environment with no allowlist, successful authentication, an
immediately successful remote fetch, and a zero reset delay. -/
def plainFetchEnv : FetchEnv :=
  { allowedRepos := ""
    authFailure := none
    attempts := fun _ => .ok "content"
    resetDelay := 0 }

/-- A handler environment in which the new spec validates and fetching the
old spec raises `RepositoryNotFoundError` (a `GitHubError` subclass). -/
def repoMissingEnv : ApplyEnv :=
  { missingKey := none
    repoName := "acme/app"
    specPath := "specs/app.spec.yml"
    parseNew := .ok (.dict [])
    fetchOld := .error (.ghRepoNotFound "Repository not found or inaccessible: acme/app")
    parseOld := .ok (.dict [])
    createBranch1 := .ok "sha1"
    createBranch2 := .ok "sha2"
    commitFile := .ok "sha3"
    createPR := .ok ⟨1, "https://example.invalid/pr/1"⟩
    addLabels := .ok ()
    timestamp := 1700000000
    randomSuffix := 1234 }

/-- A fetch environment with no allowlist and successful authentication
whose remote rate-limits the first two attempts, then succeeds. -/
def retryTwiceEnv : FetchEnv :=
  { allowedRepos := ""
    authFailure := none
    attempts := fun n => if n < 2 then .rateLimited else .ok "kind: WebApplication"
    resetDelay := 30 }

/-- A fetch environment whose remote rate-limits every attempt. -/
def exhaustedEnv : FetchEnv :=
  { allowedRepos := ""
    authFailure := none
    attempts := fun _ => .rateLimited
    resetDelay := 30 }

/-- The same handler environment, except fetching the old spec raises
`FileNotFoundError` (the github_client class, a `GitHubError` subclass). -/
def fileMissingEnv : ApplyEnv :=
  { repoMissingEnv with
    fetchOld := .error (.ghFileNotFound
      "File not found: specs/app.spec.yml in acme/app (ref: main)") }

/-- The same handler environment, except fetching the old spec raises the
Python builtin `FileNotFoundError` — the exception test_spec_applier.py
line 295 injects, which the real `fetch_spec_file` never raises. -/
def builtinFileMissingEnv : ApplyEnv :=
  { repoMissingEnv with
    fetchOld := .error (.builtinFileNotFound "File not found in repo") }

/-- A 1,048,577-character document (one code point over `MAX_DOC_SIZE`). -/
def oversizedDoc : String := String.mk (List.replicate 1048577 'a')

/-! ## Supporting lemmas -/

mutual

theorem Val.beq_refl : ∀ v : Val, Val.beq v v = true
  | .null => rfl
  | .bool b => by simp [Val.beq]
  | .int n => by simp [Val.beq]
  | .str s => by simp [Val.beq]
  | .list xs => Val.beqList_refl xs
  | .dict d => Val.beqDict_refl d

theorem Val.beqList_refl : ∀ xs : List Val, Val.beqList xs xs = true
  | [] => rfl
  | x :: xs => by
      rw [Val.beqList]
      simp [Val.beq_refl x, Val.beqList_refl xs]

theorem Val.beqDict_refl : ∀ d : List (String × Val), Val.beqDict d d = true
  | [] => rfl
  | (k, v) :: d => by
      rw [Val.beqDict]
      simp [Val.beq_refl v, Val.beqDict_refl d]

end

theorem pyEq_refl (v : Val) : pyEq v v = true := by
  cases v <;>
    simp [pyEq, BEq.beq, Val.beq_refl, Val.beq, Val.beqList_refl, Val.beqDict_refl]

theorem pyEq_str_str (a b : String) : pyEq (.str a) (.str b) = (a == b) := rfl

theorem vltList_self : ∀ (xs : List Val) (b : Bool),
    vltList xs xs = .ok b → b = false
  | [], b, h => by simpa [vltList] using h
  | x :: xs, b, h => by
      rw [vltList, pyEq_refl] at h
      simp at h
      exact vltList_self xs b h

theorem vlt_self (v : Val) (b : Bool) : vlt v v = .ok b → b = false := by
  cases v with
  | null => intro h; simp [vlt] at h
  | bool a =>
      intro h
      simp only [vlt, Except.ok.injEq] at h
      simp [← h]
  | int n =>
      intro h
      simp only [vlt, Except.ok.injEq] at h
      simp [← h]
  | str s =>
      intro h
      simp only [vlt, Except.ok.injEq] at h
      simp [← h]
  | list xs => exact fun h => vltList_self xs b (by simpa [vlt] using h)
  | dict d => intro h; simp [vlt] at h

theorem pySetDiff_self (a : List Val) : pySetDiff a a = [] := by
  rw [pySetDiff, List.filter_eq_nil_iff]
  intro x hx
  have hx2 : a.any (fun y => pyEq x y) = true :=
    List.any_eq_true.mpr ⟨x, hx, pyEq_refl x⟩
  simp [hx2]

theorem exceptBindOk {α β : Type} {x : Except String α}
    {f : α → Except String β} {b : β} (h : x >>= f = .ok b) :
    ∃ a, x = .ok a ∧ f a = .ok b := by
  cases x with
  | error e => simp [Bind.bind, Except.bind] at h
  | ok a => exact ⟨a, rfl, by simpa [Bind.bind, Except.bind] using h⟩

theorem exceptPureOk {α : Type} {a b : α}
    (h : (pure a : Except String α) = .ok b) : a = b := by
  simpa [Pure.pure, Except.pure] using h

theorem pyEq_str_right (v : Val) (s : String) (h : pyEq v (.str s) = true) :
    v = .str s := by
  cases v with
  | str a =>
      have ha : a = s := by simpa [pyEq, BEq.beq, Val.beq] using h
      rw [ha]
  | null => simp [pyEq, BEq.beq, Val.beq] at h
  | bool b => simp [pyEq, BEq.beq, Val.beq] at h
  | int n => simp [pyEq, BEq.beq, Val.beq] at h
  | list xs => simp [pyEq, BEq.beq, Val.beq] at h
  | dict d => simp [pyEq, BEq.beq, Val.beq] at h

/-! Reflexivity of the individual detector blocks: comparing any value with
itself emits nothing (or raises). -/

theorem secWafEnabled_self (w : Val) (l : List ChangeWarning)
    (h : secWafEnabled w w = .ok l) : l = [] := by
  unfold secWafEnabled at h
  obtain ⟨v, hv, h⟩ := exceptBindOk h
  by_cases ht : v.truthy
  · rw [if_pos ht] at h
    obtain ⟨v2, hv2, h⟩ := exceptBindOk h
    rw [hv] at hv2
    injection hv2 with hv2
    subst hv2
    rw [if_neg (by simp [ht])] at h
    exact (exceptPureOk h).symm
  · rw [if_neg ht] at h
    exact (exceptPureOk h).symm

theorem secWafMode_self (w : Val) (l : List ChangeWarning)
    (h : secWafMode w w = .ok l) : l = [] := by
  unfold secWafMode at h
  obtain ⟨v, hv, h⟩ := exceptBindOk h
  by_cases hb : pyEq v (.str "block") = true
  · rw [if_pos hb] at h
    obtain ⟨v2, hv2, h⟩ := exceptBindOk h
    rw [hv] at hv2
    injection hv2 with hv2
    subst hv2
    have hne : ¬(pyEq v (.str "monitor") = true) := by
      intro hm
      have h1 := pyEq_str_right v "block" hb
      have h2 := pyEq_str_right v "monitor" hm
      rw [h1] at h2
      exact absurd (Val.str.inj h2) (by decide)
    rw [if_neg hne] at h
    exact (exceptPureOk h).symm
  · rw [if_neg hb] at h
    exact (exceptPureOk h).symm

theorem secRulesets_self (w : Val) (l : List ChangeWarning)
    (h : secRulesets w w = .ok l) : l = [] := by
  unfold secRulesets at h
  obtain ⟨r, hr, h⟩ := exceptBindOk h
  obtain ⟨s1, hs1, h⟩ := exceptBindOk h
  obtain ⟨r2, hr2, h⟩ := exceptBindOk h
  rw [hr] at hr2
  injection hr2 with hr2
  subst hr2
  obtain ⟨s2, hs2, h⟩ := exceptBindOk h
  rw [hs1] at hs2
  injection hs2 with hs2
  subst hs2
  rw [pySetDiff_self] at h
  rw [if_neg (by simp)] at h
  exact (exceptPureOk h).symm

theorem secEncAtRest_self (e : Val) (l : List ChangeWarning)
    (h : secEncAtRest e e = .ok l) : l = [] := by
  unfold secEncAtRest at h
  obtain ⟨v, hv, h⟩ := exceptBindOk h
  by_cases ht : v.truthy
  · rw [if_pos ht] at h
    obtain ⟨v2, hv2, h⟩ := exceptBindOk h
    rw [hv] at hv2
    injection hv2 with hv2
    subst hv2
    rw [if_neg (by simp [ht])] at h
    exact (exceptPureOk h).symm
  · rw [if_neg ht] at h
    exact (exceptPureOk h).symm

theorem secEncInTransit_self (e : Val) (l : List ChangeWarning)
    (h : secEncInTransit e e = .ok l) : l = [] := by
  unfold secEncInTransit at h
  obtain ⟨v, hv, h⟩ := exceptBindOk h
  by_cases ht : v.truthy
  · rw [if_pos ht] at h
    obtain ⟨v2, hv2, h⟩ := exceptBindOk h
    rw [hv] at hv2
    injection hv2 with hv2
    subst hv2
    rw [if_neg (by simp [ht])] at h
    exact (exceptPureOk h).symm
  · rw [if_neg ht] at h
    exact (exceptPureOk h).symm

theorem secEncryption_self (sec : Val) (l : List ChangeWarning)
    (h : secEncryption sec sec = .ok l) : l = [] := by
  unfold secEncryption at h
  obtain ⟨e1, he1, h⟩ := exceptBindOk h
  obtain ⟨e2, he2, h⟩ := exceptBindOk h
  rw [he1] at he2
  injection he2 with he2
  subst he2
  obtain ⟨w1, hw1, h⟩ := exceptBindOk h
  obtain ⟨w2, hw2, h⟩ := exceptBindOk h
  rw [secEncAtRest_self e1 w1 hw1, secEncInTransit_self e1 w2 hw2] at h
  simpa using (exceptPureOk h).symm

theorem compSize_self (c : Val) (l : List ChangeWarning)
    (h : compSize c c = .ok l) : l = [] := by
  unfold compSize at h
  obtain ⟨v, hv, h⟩ := exceptBindOk h
  obtain ⟨v2, hv2, h⟩ := exceptBindOk h
  rw [hv] at hv2
  injection hv2 with hv2
  subst hv2
  by_cases ht : v.truthy && v.truthy
  · rw [if_pos ht] at h
    obtain ⟨n1, hn1, h⟩ := exceptBindOk h
    obtain ⟨n2, hn2, h⟩ := exceptBindOk h
    rw [hn1] at hn2
    injection hn2 with hn2
    subst hn2
    rw [if_neg (lt_irrefl n1)] at h
    exact (exceptPureOk h).symm
  · rw [if_neg ht] at h
    exact (exceptPureOk h).symm

theorem compScalingMax_self (sc : Val) (l : List ChangeWarning)
    (h : compScalingMax sc sc = .ok l) : l = [] := by
  unfold compScalingMax at h
  obtain ⟨v, hv, h⟩ := exceptBindOk h
  obtain ⟨v2, hv2, h⟩ := exceptBindOk h
  rw [hv] at hv2
  injection hv2 with hv2
  subst hv2
  by_cases ht : v.truthy && v.truthy
  · rw [if_pos ht] at h
    obtain ⟨b, hb, h⟩ := exceptBindOk h
    rw [vlt_self v b hb] at h
    rw [if_neg (by simp)] at h
    exact (exceptPureOk h).symm
  · rw [if_neg ht] at h
    exact (exceptPureOk h).symm

theorem compScalingMin_self (sc : Val) (l : List ChangeWarning)
    (h : compScalingMin sc sc = .ok l) : l = [] := by
  unfold compScalingMin at h
  obtain ⟨v, hv, h⟩ := exceptBindOk h
  obtain ⟨v2, hv2, h⟩ := exceptBindOk h
  rw [hv] at hv2
  injection hv2 with hv2
  subst hv2
  by_cases ht : v.truthy && v.truthy
  · rw [if_pos ht] at h
    obtain ⟨b, hb, h⟩ := exceptBindOk h
    rw [vlt_self v b hb] at h
    rw [if_neg (by simp)] at h
    exact (exceptPureOk h).symm
  · rw [if_neg ht] at h
    exact (exceptPureOk h).symm

theorem compScaling_self (c : Val) (l : List ChangeWarning)
    (h : compScaling c c = .ok l) : l = [] := by
  unfold compScaling at h
  obtain ⟨sc1, hsc1, h⟩ := exceptBindOk h
  obtain ⟨sc2, hsc2, h⟩ := exceptBindOk h
  rw [hsc1] at hsc2
  injection hsc2 with hsc2
  subst hsc2
  obtain ⟨w1, hw1, h⟩ := exceptBindOk h
  obtain ⟨w2, hw2, h⟩ := exceptBindOk h
  rw [compScalingMax_self sc1 w1 hw1, compScalingMin_self sc1 w2 hw2] at h
  simpa using (exceptPureOk h).symm

theorem dataEngine_self (d : Val) (l : List ChangeWarning)
    (h : dataEngine d d = .ok l) : l = [] := by
  unfold dataEngine at h
  obtain ⟨v, hv, h⟩ := exceptBindOk h
  obtain ⟨v2, hv2, h⟩ := exceptBindOk h
  rw [hv] at hv2
  injection hv2 with hv2
  subst hv2
  by_cases hg : v.truthy && !pyEq v (.str "none")
  · rw [if_pos hg] at h
    have hnone : ¬(pyEq v (.str "none") = true) := by
      intro hh
      simp [hh] at hg
    rw [if_neg hnone] at h
    rw [if_neg (by simp [pyEq_refl v])] at h
    exact (exceptPureOk h).symm
  · rw [if_neg hg] at h
    exact (exceptPureOk h).symm

theorem dataSize_self (d : Val) (l : List ChangeWarning)
    (h : dataSize d d = .ok l) : l = [] := by
  unfold dataSize at h
  obtain ⟨v, hv, h⟩ := exceptBindOk h
  obtain ⟨v2, hv2, h⟩ := exceptBindOk h
  rw [hv] at hv2
  injection hv2 with hv2
  subst hv2
  by_cases ht : v.truthy && v.truthy
  · rw [if_pos ht] at h
    obtain ⟨n1, hn1, h⟩ := exceptBindOk h
    obtain ⟨n2, hn2, h⟩ := exceptBindOk h
    rw [hn1] at hn2
    injection hn2 with hn2
    subst hn2
    rw [if_neg (lt_irrefl n1)] at h
    exact (exceptPureOk h).symm
  · rw [if_neg ht] at h
    exact (exceptPureOk h).symm

theorem dataHA_self (d : Val) (l : List ChangeWarning)
    (h : dataHA d d = .ok l) : l = [] := by
  unfold dataHA at h
  obtain ⟨v, hv, h⟩ := exceptBindOk h
  by_cases ht : v.truthy
  · rw [if_pos ht] at h
    obtain ⟨v2, hv2, h⟩ := exceptBindOk h
    rw [hv] at hv2
    injection hv2 with hv2
    subst hv2
    rw [if_neg (by simp [ht])] at h
    exact (exceptPureOk h).symm
  · rw [if_neg ht] at h
    exact (exceptPureOk h).symm

theorem dataRetention_self (d : Val) (l : List ChangeWarning)
    (h : dataRetention d d = .ok l) : l = [] := by
  unfold dataRetention at h
  obtain ⟨v, hv, h⟩ := exceptBindOk h
  obtain ⟨v2, hv2, h⟩ := exceptBindOk h
  rw [hv] at hv2
  injection hv2 with hv2
  subst hv2
  by_cases ht : v.truthy && v.truthy
  · rw [if_pos ht] at h
    obtain ⟨b, hb, h⟩ := exceptBindOk h
    rw [vlt_self v b hb] at h
    rw [if_neg (by simp)] at h
    exact (exceptPureOk h).symm
  · rw [if_neg ht] at h
    exact (exceptPureOk h).symm

theorem netVpc_self (n : Val) (l : List ChangeWarning)
    (h : netVpc n n = .ok l) : l = [] := by
  unfold netVpc at h
  obtain ⟨v, hv, h⟩ := exceptBindOk h
  obtain ⟨v2, hv2, h⟩ := exceptBindOk h
  rw [hv] at hv2
  injection hv2 with hv2
  subst hv2
  rw [if_neg (by simp [pyEq_refl v])] at h
  exact (exceptPureOk h).symm

theorem netPublic_self (n : Val) (l : List ChangeWarning)
    (h : netPublic n n = .ok l) : l = [] := by
  unfold netPublic at h
  obtain ⟨v, hv, h⟩ := exceptBindOk h
  by_cases ht : v.truthy
  · rw [if_pos ht] at h
    obtain ⟨v2, hv2, h⟩ := exceptBindOk h
    rw [hv] at hv2
    injection hv2 with hv2
    subst hv2
    rw [if_neg (by simp [ht])] at h
    exact (exceptPureOk h).symm
  · rw [if_neg ht] at h
    exact (exceptPureOk h).symm

theorem netSubnets_self (n : Val) (l : List ChangeWarning)
    (h : netSubnets n n = .ok l) : l = [] := by
  unfold netSubnets at h
  obtain ⟨r, hr, h⟩ := exceptBindOk h
  obtain ⟨s1, hs1, h⟩ := exceptBindOk h
  obtain ⟨r2, hr2, h⟩ := exceptBindOk h
  rw [hr] at hr2
  injection hr2 with hr2
  subst hr2
  obtain ⟨s2, hs2, h⟩ := exceptBindOk h
  rw [hs1] at hs2
  injection hs2 with hs2
  subst hs2
  rw [pySetDiff_self] at h
  rw [if_neg (by simp)] at h
  exact (exceptPureOk h).symm

theorem govShutdown_self (g : Val) (l : List ChangeWarning)
    (h : govShutdown g g = .ok l) : l = [] := by
  unfold govShutdown at h
  obtain ⟨s1, hs1, h⟩ := exceptBindOk h
  obtain ⟨s2, hs2, h⟩ := exceptBindOk h
  rw [hs1] at hs2
  injection hs2 with hs2
  subst hs2
  obtain ⟨v, hv, h⟩ := exceptBindOk h
  by_cases ht : v.truthy
  · rw [if_neg (by simp [ht])] at h
    exact (exceptPureOk h).symm
  · rw [if_pos (by simp [Bool.not_eq_true] at ht ⊢; exact ht)] at h
    obtain ⟨v2, hv2, h⟩ := exceptBindOk h
    rw [hv] at hv2
    injection hv2 with hv2
    subst hv2
    rw [if_neg ht] at h
    exact (exceptPureOk h).symm

theorem govBudget_self (g : Val) (l : List ChangeWarning)
    (h : govBudget g g = .ok l) : l = [] := by
  unfold govBudget at h
  obtain ⟨v, hv, h⟩ := exceptBindOk h
  obtain ⟨v2, hv2, h⟩ := exceptBindOk h
  rw [hv] at hv2
  injection hv2 with hv2
  subst hv2
  by_cases ht : v.truthy && v.truthy
  · rw [if_pos ht] at h
    obtain ⟨b, hb, h⟩ := exceptBindOk h
    rw [vlt_self v b hb] at h
    rw [if_neg (by simp)] at h
    exact (exceptPureOk h).symm
  · rw [if_neg ht] at h
    exact (exceptPureOk h).symm

theorem check_security_self (s : Val) (l : List ChangeWarning)
    (h : check_security_changes s s = .ok l) : l = [] := by
  unfold check_security_changes at h
  obtain ⟨os, hos, h⟩ := exceptBindOk h
  obtain ⟨ns, hns, h⟩ := exceptBindOk h
  rw [hos] at hns
  injection hns with hns
  subst hns
  obtain ⟨ow, how, h⟩ := exceptBindOk h
  obtain ⟨nw, hnw, h⟩ := exceptBindOk h
  rw [how] at hnw
  injection hnw with hnw
  subst hnw
  obtain ⟨w1, hw1, h⟩ := exceptBindOk h
  obtain ⟨w2, hw2, h⟩ := exceptBindOk h
  obtain ⟨w3, hw3, h⟩ := exceptBindOk h
  obtain ⟨w4, hw4, h⟩ := exceptBindOk h
  rw [secWafEnabled_self ow w1 hw1, secWafMode_self ow w2 hw2,
      secRulesets_self ow w3 hw3, secEncryption_self os w4 hw4] at h
  simpa using (exceptPureOk h).symm

theorem check_compute_self (s : Val) (l : List ChangeWarning)
    (h : check_compute_changes s s = .ok l) : l = [] := by
  unfold check_compute_changes at h
  obtain ⟨oc, hoc, h⟩ := exceptBindOk h
  obtain ⟨nc, hnc, h⟩ := exceptBindOk h
  rw [hoc] at hnc
  injection hnc with hnc
  subst hnc
  by_cases ht : !oc.truthy || !oc.truthy
  · rw [if_pos ht] at h
    exact (exceptPureOk h).symm
  · rw [if_neg ht] at h
    obtain ⟨w1, hw1, h⟩ := exceptBindOk h
    obtain ⟨w2, hw2, h⟩ := exceptBindOk h
    rw [compSize_self oc w1 hw1, compScaling_self oc w2 hw2] at h
    simpa using (exceptPureOk h).symm

theorem check_data_self (s : Val) (l : List ChangeWarning)
    (h : check_data_changes s s = .ok l) : l = [] := by
  unfold check_data_changes at h
  obtain ⟨od, hod, h⟩ := exceptBindOk h
  obtain ⟨nd, hnd, h⟩ := exceptBindOk h
  rw [hod] at hnd
  injection hnd with hnd
  subst hnd
  by_cases ht : !od.truthy
  · rw [if_pos ht] at h
    exact (exceptPureOk h).symm
  · rw [if_neg ht] at h
    obtain ⟨w1, hw1, h⟩ := exceptBindOk h
    obtain ⟨w2, hw2, h⟩ := exceptBindOk h
    obtain ⟨w3, hw3, h⟩ := exceptBindOk h
    obtain ⟨w4, hw4, h⟩ := exceptBindOk h
    rw [dataEngine_self od w1 hw1, dataSize_self od w2 hw2,
        dataHA_self od w3 hw3, dataRetention_self od w4 hw4] at h
    simpa using (exceptPureOk h).symm

theorem check_network_self (s : Val) (l : List ChangeWarning)
    (h : check_network_changes s s = .ok l) : l = [] := by
  unfold check_network_changes at h
  obtain ⟨od, hod, h⟩ := exceptBindOk h
  obtain ⟨nd, hnd, h⟩ := exceptBindOk h
  rw [hod] at hnd
  injection hnd with hnd
  subst hnd
  by_cases ht : !od.truthy
  · rw [if_pos ht] at h
    exact (exceptPureOk h).symm
  · rw [if_neg ht] at h
    obtain ⟨w1, hw1, h⟩ := exceptBindOk h
    obtain ⟨w2, hw2, h⟩ := exceptBindOk h
    obtain ⟨w3, hw3, h⟩ := exceptBindOk h
    rw [netVpc_self od w1 hw1, netPublic_self od w2 hw2,
        netSubnets_self od w3 hw3] at h
    simpa using (exceptPureOk h).symm

theorem check_governance_self (s : Val) (l : List ChangeWarning)
    (h : check_governance_changes s s = .ok l) : l = [] := by
  unfold check_governance_changes at h
  obtain ⟨og, hog, h⟩ := exceptBindOk h
  obtain ⟨ng, hng, h⟩ := exceptBindOk h
  rw [hog] at hng
  injection hng with hng
  subst hng
  obtain ⟨w1, hw1, h⟩ := exceptBindOk h
  obtain ⟨w2, hw2, h⟩ := exceptBindOk h
  rw [govShutdown_self og w1 hw1, govBudget_self og w2 hw2] at h
  simpa using (exceptPureOk h).symm

theorem check_destructive_self (s : Val) (l : List ChangeWarning)
    (h : check_destructive_changes s s = .ok l) : l = [] := by
  unfold check_destructive_changes at h
  obtain ⟨w1, hw1, h⟩ := exceptBindOk h
  obtain ⟨w2, hw2, h⟩ := exceptBindOk h
  obtain ⟨w3, hw3, h⟩ := exceptBindOk h
  obtain ⟨w4, hw4, h⟩ := exceptBindOk h
  obtain ⟨w5, hw5, h⟩ := exceptBindOk h
  rw [check_security_self s w1 hw1, check_compute_self s w2 hw2,
      check_data_self s w3 hw3, check_network_self s w4 hw4,
      check_governance_self s w5 hw5] at h
  simpa using (exceptPureOk h).symm

theorem sizeOrderGet_unrec (s : String)
    (h : s ∉ (["demo", "small", "medium", "large"] : List String)) :
    sizeOrderGet (.str s) = .ok 0 := by
  simp only [List.mem_cons, List.not_mem_nil, or_false, not_or] at h
  obtain ⟨h1, h2, h3, h4⟩ := h
  simp [sizeOrderGet, h1, h2, h3, h4]

theorem check_compute_size_eval (so sn : String) (hso : so ≠ "") (hsn : sn ≠ "")
    (a b : Int) (ha : sizeOrderGet (.str so) = .ok a)
    (hb : sizeOrderGet (.str sn) = .ok b) :
    check_compute_changes (computeSizeSpec so) (computeSizeSpec sn) =
      .ok (if b < a then
        [⟨.warning, "⚠️ Compute size reduction from \x27" ++ so ++ "\x27 to \x27" ++
          sn ++ "\x27 may cause downtime", "spec.compute.size"⟩] else []) := by
  simp [check_compute_changes, computeSizeSpec, subtree, Val.pyGet, lookupStr,
    compSize, compScaling, compScalingMax, compScalingMin, Val.truthy, pyStr,
    Bind.bind, Except.bind, Pure.pure, Except.pure, hso, hsn, ha, hb]
  by_cases hlt : b < a <;> simp [hlt]

theorem check_data_size_eval (so sn : String) (hso : so ≠ "") (hsn : sn ≠ "")
    (a b : Int) (ha : sizeOrderGet (.str so) = .ok a)
    (hb : sizeOrderGet (.str sn) = .ok b) :
    check_data_changes (dataSizeSpec so) (dataSizeSpec sn) =
      .ok (if b < a then
        [⟨.warning, "⚠️ Database size reduction from \x27" ++ so ++ "\x27 to \x27" ++
          sn ++ "\x27 may require data cleanup", "spec.data.size"⟩] else []) := by
  simp [check_data_changes, dataSizeSpec, subtree, Val.pyGet, lookupStr,
    dataEngine, dataSize, dataHA, dataRetention, Val.truthy, pyStr,
    Bind.bind, Except.bind, Pure.pure, Except.pure, hso, hsn, ha, hb]
  by_cases hlt : b < a <;> simp [hlt]

theorem pyDedupAux_map_str (l : List String) : ∀ seen : List String,
    ∃ ds : List String,
      pyDedupAux (seen.map Val.str) (l.map Val.str) = ds.map Val.str ∧
      ∀ m : String, m ∈ ds ↔ (m ∈ l ∧ m ∉ seen) := by
  induction l with
  | nil => exact fun seen => ⟨[], rfl, by simp⟩
  | cons x xs ih =>
      intro seen
      have hany : ((seen.map Val.str).any (fun y => pyEq y (.str x))) =
          seen.any (fun s => s == x) := by
        induction seen with
        | nil => rfl
        | cons s ss ihs => simp [List.any_cons, ihs, pyEq_str_str]
      by_cases hx : x ∈ seen
      · have h1 : seen.any (fun s => s == x) = true :=
          List.any_eq_true.mpr ⟨x, hx, by simp⟩
        obtain ⟨ds, hds, hmem⟩ := ih seen
        refine ⟨ds, ?_, ?_⟩
        · rw [List.map_cons, pyDedupAux, hany, h1]
          exact hds
        · intro m
          rw [hmem m]
          constructor
          · rintro ⟨h2, h3⟩
            exact ⟨List.mem_cons_of_mem _ h2, h3⟩
          · rintro ⟨h2, h3⟩
            rcases List.mem_cons.mp h2 with rfl | h2
            · exact absurd hx h3
            · exact ⟨h2, h3⟩
      · have h1 : seen.any (fun s => s == x) = false := by
          rw [List.any_eq_false]
          intro s hs
          simp only [beq_iff_eq]
          rintro rfl
          exact hx hs
        obtain ⟨ds, hds, hmem⟩ := ih (x :: seen)
        refine ⟨x :: ds, ?_, ?_⟩
        · rw [List.map_cons, pyDedupAux, hany, h1]
          rw [if_neg (by simp)]
          rw [List.map_cons]
          exact congrArg (fun t => Val.str x :: t) hds
        · intro m
          by_cases hmx : m = x
          · subst hmx
            simp [hx]
          · simp only [List.mem_cons, hmx, false_or]
            rw [hmem m]
            simp [List.mem_cons, hmx]

theorem pySet_map_str (l : List String) :
    ∃ ds : List String,
      pySet (.list (l.map Val.str)) = .ok (ds.map Val.str) ∧
      ∀ m : String, m ∈ ds ↔ m ∈ l := by
  obtain ⟨ds, hds, hmem⟩ := pyDedupAux_map_str l []
  have hall : (l.map Val.str).all hashable = true := by
    rw [List.all_eq_true]
    intro v hv
    obtain ⟨m, _, rfl⟩ := List.mem_map.mp hv
    rfl
  refine ⟨ds, ?_, fun m => by simpa using hmem m⟩
  rw [pySet, if_pos hall, pyDedup]
  exact congrArg Except.ok hds

theorem pySetDiff_map_str (a b : List String) :
    pySetDiff (a.map Val.str) (b.map Val.str) =
      (a.filter (fun m => !(b.any (fun t => m == t)))).map Val.str := by
  rw [pySetDiff, List.filter_map]
  have hp : ((fun x => !(List.map Val.str b).any fun y => pyEq x y) ∘ Val.str) =
      (fun m : String => !(b.any fun t => m == t)) := by
    funext m
    simp only [Function.comp]
    congr 1
    induction b with
    | nil => rfl
    | cons t ts iht => simp [List.any_cons, iht, pyEq_str_str]
  rw [hp]

theorem asStrings_map_str (l : List String) : asStrings (l.map Val.str) = some l := by
  induction l with
  | nil => rfl
  | cons x xs ih => simp [asStrings, ih]

theorem sortedJoin_map_str (l : List String) :
    sortedJoin (l.map Val.str) = .ok (String.intercalate ", " (pySortStrings l)) := by
  rw [sortedJoin, asStrings_map_str]

theorem mem_pySortStrings (l : List String) (m : String) :
    m ∈ pySortStrings l ↔ m ∈ l := by
  rw [pySortStrings]
  exact (List.mergeSort_perm l _).mem_iff

theorem secRulesets_eval (olds news : List String) :
    ∃ rs : List String,
      (∀ m : String, m ∈ rs ↔ (m ∈ olds ∧ m ∉ news)) ∧
      secRulesets (.dict [("rulesets", .list (olds.map Val.str))])
          (.dict [("rulesets", .list (news.map Val.str))]) =
        .ok (if rs.isEmpty then [] else
          [⟨.warning, "⚠️ Removing WAF rulesets: " ++
            String.intercalate ", " (pySortStrings rs),
            "spec.security.waf.rulesets"⟩]) := by
  obtain ⟨ds, hds, hdm⟩ := pySet_map_str olds
  obtain ⟨es, hes, hem⟩ := pySet_map_str news
  refine ⟨ds.filter (fun m => !(es.any (fun t => m == t))), ?_, ?_⟩
  · intro m
    rw [List.mem_filter, hdm m]
    have : (!(es.any fun t => m == t)) = true ↔ m ∉ news := by
      simp [List.any_eq_true, hem]
      exact ⟨fun h hm => h m hm rfl, fun h x hx hxe => h (hxe ▸ hx)⟩
    rw [this]
  · unfold secRulesets
    have hg1 : Val.pyGet (.dict [("rulesets", .list (olds.map Val.str))])
        "rulesets" (.list []) = .ok (.list (olds.map Val.str)) := rfl
    have hg2 : Val.pyGet (.dict [("rulesets", .list (news.map Val.str))])
        "rulesets" (.list []) = .ok (.list (news.map Val.str)) := rfl
    rw [hg1, hg2]
    simp only [Bind.bind, Except.bind, hds, hes, pySetDiff_map_str]
    by_cases hre : (ds.filter (fun m => !(es.any (fun t => m == t)))).isEmpty
    · rw [if_pos hre]
      simp only [List.isEmpty_iff] at hre
      rw [hre]
      simp [Pure.pure, Except.pure]
    · rw [if_neg hre]
      have hmap : ((ds.filter (fun m => !(es.any (fun t => m == t)))).map Val.str).isEmpty = false := by
        cases hc : ds.filter (fun m => !(es.any (fun t => m == t))) with
        | nil =>
            rw [hc] at hre
            exact absurd rfl hre
        | cons a as => rfl
      rw [if_pos (by simp [hmap])]
      simp only [sortedJoin_map_str, Pure.pure, Except.pure]

theorem check_security_rulesets_only (olds news : List String) (l : List ChangeWarning)
    (h : secRulesets (.dict [("rulesets", .list (olds.map Val.str))])
        (.dict [("rulesets", .list (news.map Val.str))]) = .ok l) :
    check_security_changes (rulesetsSpec olds) (rulesetsSpec news) = .ok l := by
  unfold check_security_changes rulesetsSpec
  simp [subtree, Val.pyGet, lookupStr, secWafEnabled, secWafMode,
    secEncryption, secEncAtRest, secEncInTransit, Val.truthy, pyEq,
    BEq.beq, Val.beq, Bind.bind, Except.bind, Pure.pure, Except.pure, h]

theorem netSubnets_eval (olds news : List String) :
    ∃ rs : List String,
      (∀ m : String, m ∈ rs ↔ (m ∈ olds ∧ m ∉ news)) ∧
      netSubnets (.dict [("subnets", .list (olds.map Val.str))])
          (.dict [("subnets", .list (news.map Val.str))]) =
        .ok (if rs.isEmpty then [] else
          [⟨.warning, "⚠️ Removing subnets: " ++
            String.intercalate ", " (pySortStrings rs),
            "spec.network.subnets"⟩]) := by
  obtain ⟨ds, hds, hdm⟩ := pySet_map_str olds
  obtain ⟨es, hes, hem⟩ := pySet_map_str news
  refine ⟨ds.filter (fun m => !(es.any (fun t => m == t))), ?_, ?_⟩
  · intro m
    rw [List.mem_filter, hdm m]
    have : (!(es.any fun t => m == t)) = true ↔ m ∉ news := by
      simp [List.any_eq_true, hem]
      exact ⟨fun h hm => h m hm rfl, fun h x hx hxe => h (hxe ▸ hx)⟩
    rw [this]
  · unfold netSubnets
    have hg1 : Val.pyGet (.dict [("subnets", .list (olds.map Val.str))])
        "subnets" (.list []) = .ok (.list (olds.map Val.str)) := rfl
    have hg2 : Val.pyGet (.dict [("subnets", .list (news.map Val.str))])
        "subnets" (.list []) = .ok (.list (news.map Val.str)) := rfl
    rw [hg1, hg2]
    simp only [Bind.bind, Except.bind, hds, hes, pySetDiff_map_str]
    by_cases hre : (ds.filter (fun m => !(es.any (fun t => m == t)))).isEmpty
    · rw [if_pos hre]
      simp only [List.isEmpty_iff] at hre
      rw [hre]
      simp [Pure.pure, Except.pure]
    · rw [if_neg hre]
      have hmap : ((ds.filter (fun m => !(es.any (fun t => m == t)))).map Val.str).isEmpty = false := by
        cases hc : ds.filter (fun m => !(es.any (fun t => m == t))) with
        | nil =>
            rw [hc] at hre
            exact absurd rfl hre
        | cons a as => rfl
      rw [if_pos (by simp [hmap])]
      simp only [sortedJoin_map_str, Pure.pure, Except.pure]

theorem check_network_subnets_only (olds news : List String) (l : List ChangeWarning)
    (h : netSubnets (.dict [("subnets", .list (olds.map Val.str))])
        (.dict [("subnets", .list (news.map Val.str))]) = .ok l) :
    check_network_changes (subnetsSpec olds) (subnetsSpec news) = .ok l := by
  unfold check_network_changes subnetsSpec
  simp [subtree, Val.pyGet, lookupStr, netVpc, netPublic, Val.truthy, pyEq,
    BEq.beq, Val.beq, Bind.bind, Except.bind, Pure.pure, Except.pure, h]

/-! ## Claim theorems -/

/-- C3 counterexample: for the concrete dict whose `spec.compute.size` is
the (truthy, unhashable) list `["x"]`, `check_destructive_changes(s, s)`
raises `TypeError` from `SIZE_ORDER.get` instead of returning the empty
list, so the claim is false for arbitrary dicts. -/
theorem C3_counterexample :
    check_destructive_changes badSelfSpec badSelfSpec =
        .error "TypeError: unhashable type" ∧
      check_destructive_changes badSelfSpec badSelfSpec ≠ .ok [] := by
  have hc : check_destructive_changes badSelfSpec badSelfSpec =
      .error "TypeError: unhashable type" := rfl
  refine ⟨hc, ?_⟩
  rw [hc]
  intro h
  exact Except.noConfusion h

/-- C3 (amended): comparing any spec against itself never produces a
warning: `check_destructive_changes(s, s)` either returns the empty list or
raises a `TypeError`/`AttributeError` (possible only for values outside the
validated-spec shape, such as an unhashable size key). -/
theorem C3_self_comparison (s : Val) :
    check_destructive_changes s s = .ok [] ∨
      ∃ e, check_destructive_changes s s = .error e := by
  cases h : check_destructive_changes s s with
  | ok l =>
      have hl : l = [] := check_destructive_self s l h
      subst hl
      exact Or.inl rfl
  | error e => exact Or.inr ⟨e, rfl⟩

/-- C2 counterexample: with no `spec.security` subtree in the old spec and
a new spec setting `spec.security.encryption.atRest` to `False`, the
security detector emits one warning rather than none: the encryption checks
default an absent old value to enabled (`old_enc.get("atRest", True)`). -/
theorem C2_counterexample :
    check_security_changes c2old c2new =
        .ok [⟨.warning, "⚠️ Disabling encryption at rest",
          "spec.security.encryption.atRest"⟩] ∧
      check_security_changes c2old c2new ≠ .ok [] := by
  have hc : check_security_changes c2old c2new =
      .ok [⟨.warning, "⚠️ Disabling encryption at rest",
        "spec.security.encryption.atRest"⟩] := rfl
  refine ⟨hc, ?_⟩
  rw [hc]
  intro h
  injection h with h
  exact List.noConfusion h

/-- C2 (amended): the compute, data and network detectors emit no warnings
whenever their relevant subtree is absent (falsy) in the old spec,
regardless of the new spec; the security and governance detectors lack this
property because their encryption and auto-shutdown checks apply defaults
to the absent old subtree. -/
theorem C2_absent_old_subtree :
    (∀ old new oc nc, subtree old "compute" = .ok oc → oc.truthy = false →
        subtree new "compute" = .ok nc →
        check_compute_changes old new = .ok []) ∧
    (∀ old new od nd, subtree old "data" = .ok od → od.truthy = false →
        subtree new "data" = .ok nd →
        check_data_changes old new = .ok []) ∧
    (∀ old new ov nv, subtree old "network" = .ok ov → ov.truthy = false →
        subtree new "network" = .ok nv →
        check_network_changes old new = .ok []) := by
  refine ⟨?_, ?_, ?_⟩
  · intro old new oc nc hoc ht hnc
    unfold check_compute_changes
    rw [hoc, hnc]
    simp [Bind.bind, Except.bind, ht, Pure.pure, Except.pure]
  · intro old new od nd hod ht hnd
    unfold check_data_changes
    rw [hod, hnd]
    simp [Bind.bind, Except.bind, ht, Pure.pure, Except.pure]
  · intro old new ov nv hov ht hnv
    unfold check_network_changes
    rw [hov, hnv]
    simp [Bind.bind, Except.bind, ht, Pure.pure, Except.pure]

/-- C9 counterexample: reducing the scaling maximum from 3 to 0 emits no
warning, because Python truthiness (`old_max and new_max and ...`) treats
the new bound 0 as falsy and skips the comparison entirely. -/
theorem C9_counterexample :
    check_compute_changes (scalingSpec 1 3) (scalingSpec 1 0) = .ok [] := rfl

/-- C9 (amended): for integer scaling bounds that are all nonzero, a
reduction of the maximum yields one WARNING and a reduction of the minimum
yields one WARNING, each depending only on its own pair of bounds (the max
warning listed first); a bound equal to 0 disables that bound's check. -/
theorem C9_scaling_reduction (omin omax nmin nmax : Int)
    (h1 : omin ≠ 0) (h2 : omax ≠ 0) (h3 : nmin ≠ 0) (h4 : nmax ≠ 0) :
    check_compute_changes (scalingSpec omin omax) (scalingSpec nmin nmax) =
      .ok ((if nmax < omax then
          [⟨.warning, "⚠️ Maximum instance count reduced from " ++ toString omax ++
            " to " ++ toString nmax, "spec.compute.scaling.max"⟩] else []) ++
        (if nmin < omin then
          [⟨.warning, "⚠️ Minimum instance count reduced from " ++ toString omin ++
            " to " ++ toString nmin, "spec.compute.scaling.min"⟩] else [])) := by
  simp [check_compute_changes, scalingSpec, subtree, Val.pyGet, lookupStr,
    compSize, compScaling, compScalingMax, compScalingMin, Val.truthy,
    vlt, pyStr, Bind.bind, Except.bind, Pure.pure, Except.pure, h1, h2, h3, h4]
  by_cases ha : nmax < omax <;> by_cases hb : nmin < omin <;> simp [ha, hb]

/-- C9 witness: reducing min 2→1 and max 10→5 yields both warnings. -/
theorem C9_scaling_reduction_witness :
    check_compute_changes (scalingSpec 2 10) (scalingSpec 1 5) =
      .ok [⟨.warning, "⚠️ Maximum instance count reduced from 10 to 5",
            "spec.compute.scaling.max"⟩,
           ⟨.warning, "⚠️ Minimum instance count reduced from 2 to 1",
            "spec.compute.scaling.min"⟩] := by
  have h := C9_scaling_reduction 2 10 1 5
    (by decide) (by decide) (by decide) (by decide)
  rw [if_pos (by decide), if_pos (by decide)] at h
  exact h

/-- C10 counterexample: the empty string lies outside `SIZE_ORDER`'s four
keys, yet it is falsy, so the `old_size and new_size` guard skips the size
check entirely: "small" → "" emits no warning in either the compute or the
data detector, contradicting the claim that changing to any unrecognized
value warns. -/
theorem C10_counterexample :
    check_compute_changes (computeSizeSpec "small") (computeSizeSpec "") =
      .ok [] ∧
    check_data_changes (dataSizeSpec "small") (dataSizeSpec "") = .ok [] :=
  ⟨rfl, rfl⟩

/-- C10 (amended): both size-tier comparisons rank any size string outside
`SIZE_ORDER`'s four keys as rank 0, so a change from a recognized tier
above "demo" to a NON-EMPTY unrecognized value emits exactly one
size-reduction WARNING (in compute and in data alike), while a change from
an unrecognized value to "demo" or between two non-empty unrecognized
values emits none; the empty string, though unrecognized, is falsy and
skips the check. -/
theorem C10_unrecognized_size_tiers :
    (∀ s : String, s ∉ (["demo", "small", "medium", "large"] : List String) →
        sizeOrderGet (.str s) = .ok 0) ∧
    (∀ so sn : String, so ∈ (["small", "medium", "large"] : List String) →
        sn ∉ (["demo", "small", "medium", "large"] : List String) → sn ≠ "" →
        check_compute_changes (computeSizeSpec so) (computeSizeSpec sn) =
          .ok [⟨.warning, "⚠️ Compute size reduction from \x27" ++ so ++
            "\x27 to \x27" ++ sn ++ "\x27 may cause downtime",
            "spec.compute.size"⟩] ∧
        check_data_changes (dataSizeSpec so) (dataSizeSpec sn) =
          .ok [⟨.warning, "⚠️ Database size reduction from \x27" ++ so ++
            "\x27 to \x27" ++ sn ++ "\x27 may require data cleanup",
            "spec.data.size"⟩]) ∧
    (∀ so sn : String,
        so ∉ (["demo", "small", "medium", "large"] : List String) →
        so ≠ "" → sn ≠ "" →
        (sn = "demo" ∨ sn ∉ (["demo", "small", "medium", "large"] : List String)) →
        check_compute_changes (computeSizeSpec so) (computeSizeSpec sn) = .ok [] ∧
        check_data_changes (dataSizeSpec so) (dataSizeSpec sn) = .ok []) := by
  refine ⟨sizeOrderGet_unrec, ?_, ?_⟩
  · intro so sn hso hsn hsn2
    have hb : sizeOrderGet (.str sn) = .ok 0 := sizeOrderGet_unrec sn hsn
    simp only [List.mem_cons, List.not_mem_nil, or_false] at hso
    rcases hso with rfl | rfl | rfl
    · refine ⟨?_, ?_⟩
      · have h := check_compute_size_eval "small" sn (by decide) hsn2 1 0 rfl hb
        rw [if_pos (by decide)] at h
        exact h
      · have h := check_data_size_eval "small" sn (by decide) hsn2 1 0 rfl hb
        rw [if_pos (by decide)] at h
        exact h
    · refine ⟨?_, ?_⟩
      · have h := check_compute_size_eval "medium" sn (by decide) hsn2 2 0 rfl hb
        rw [if_pos (by decide)] at h
        exact h
      · have h := check_data_size_eval "medium" sn (by decide) hsn2 2 0 rfl hb
        rw [if_pos (by decide)] at h
        exact h
    · refine ⟨?_, ?_⟩
      · have h := check_compute_size_eval "large" sn (by decide) hsn2 3 0 rfl hb
        rw [if_pos (by decide)] at h
        exact h
      · have h := check_data_size_eval "large" sn (by decide) hsn2 3 0 rfl hb
        rw [if_pos (by decide)] at h
        exact h
  · intro so sn hso hso2 hsn2 hd
    have ha : sizeOrderGet (.str so) = .ok 0 := sizeOrderGet_unrec so hso
    have hb : sizeOrderGet (.str sn) = .ok 0 := by
      rcases hd with rfl | hn
      · rfl
      · exact sizeOrderGet_unrec sn hn
    refine ⟨?_, ?_⟩
    · have h := check_compute_size_eval so sn hso2 hsn2 0 0 ha hb
      rw [if_neg (by decide)] at h
      exact h
    · have h := check_data_size_eval so sn hso2 hsn2 0 0 ha hb
      rw [if_neg (by decide)] at h
      exact h

/-- C10 witness: "huge" ranks 0; "small"→"huge" warns in compute and data;
"huge"→"demo" does not. -/
theorem C10_unrecognized_size_tiers_witness :
    sizeOrderGet (.str "huge") = .ok 0 ∧
    check_compute_changes (computeSizeSpec "small") (computeSizeSpec "huge") =
      .ok [⟨.warning,
        "⚠️ Compute size reduction from \x27small\x27 to \x27huge\x27 may cause downtime",
        "spec.compute.size"⟩] ∧
    check_data_changes (dataSizeSpec "small") (dataSizeSpec "huge") =
      .ok [⟨.warning,
        "⚠️ Database size reduction from \x27small\x27 to \x27huge\x27 may require data cleanup",
        "spec.data.size"⟩] ∧
    check_compute_changes (computeSizeSpec "huge") (computeSizeSpec "demo") = .ok [] :=
  ⟨C10_unrecognized_size_tiers.1 "huge" (by decide),
   (C10_unrecognized_size_tiers.2.1 "small" "huge"
      (by decide) (by decide) (by decide)).1,
   (C10_unrecognized_size_tiers.2.1 "small" "huge"
      (by decide) (by decide) (by decide)).2,
   (C10_unrecognized_size_tiers.2.2 "huge" "demo"
      (by decide) (by decide) (by decide) (Or.inl rfl)).1⟩

/-- C4: on engine-only data subtrees, a transition from a non-empty engine
other than "none" to "none" yields exactly one CRITICAL warning whose fixed
message contains the irreversibility notice; a transition to a different
non-empty, non-"none" engine yields exactly one CRITICAL warning; and a
transition from a "none" or absent (None) old engine to any new engine
value yields no warning at all. -/
theorem C4_engine_transitions :
    (∀ eo : String, eo ≠ "" → eo ≠ "none" →
        check_data_changes (dataEngineSpec (.str eo))
            (dataEngineSpec (.str "none")) =
          .ok [⟨.critical,
            "🔴 Setting data.engine to \x27none\x27 will DELETE all data (irreversible!)",
            "spec.data.engine"⟩]) ∧
    "irreversible".toList <:+:
      ("🔴 Setting data.engine to \x27none\x27 will DELETE all data (irreversible!)").toList ∧
    (∀ eo en : String, eo ≠ "" → eo ≠ "none" → en ≠ "" → en ≠ "none" →
        en ≠ eo →
        check_data_changes (dataEngineSpec (.str eo))
            (dataEngineSpec (.str en)) =
          .ok [⟨.critical,
            "🔴 Changing data.engine from \x27" ++ eo ++ "\x27 to \x27" ++ en ++
              "\x27 requires manual data migration", "spec.data.engine"⟩]) ∧
    (∀ v : Val,
        check_data_changes (dataEngineSpec (.str "none")) (dataEngineSpec v) =
          .ok [] ∧
        check_data_changes (dataEngineSpec .null) (dataEngineSpec v) = .ok []) := by
  refine ⟨?_, by decide, ?_, ?_⟩
  · intro eo h1 h2
    simp [check_data_changes, dataEngineSpec, subtree, Val.pyGet, lookupStr,
      dataEngine, dataSize, dataHA, dataRetention, Val.truthy, pyStr,
      pyEq, BEq.beq, Val.beq, Bind.bind, Except.bind, Pure.pure, Except.pure,
      h1, h2]
  · intro eo en h1 h2 h3 h4 h5
    simp [check_data_changes, dataEngineSpec, subtree, Val.pyGet, lookupStr,
      dataEngine, dataSize, dataHA, dataRetention, Val.truthy, pyStr,
      pyEq, BEq.beq, Val.beq, Bind.bind, Except.bind, Pure.pure, Except.pure,
      h1, h2, h3, h4, h5]
  · intro v
    constructor <;>
      simp [check_data_changes, dataEngineSpec, subtree, Val.pyGet, lookupStr,
        dataEngine, dataSize, dataHA, dataRetention, Val.truthy, pyStr,
        pyEq, BEq.beq, Val.beq, Bind.bind, Except.bind, Pure.pure, Except.pure]

/-- C4 witness: "postgres"→"none" deletes (one CRITICAL), "postgres"→
"mysql" migrates (one CRITICAL), "none"→"postgres" is silent. -/
theorem C4_engine_transitions_witness :
    check_data_changes (dataEngineSpec (.str "postgres"))
        (dataEngineSpec (.str "none")) =
      .ok [⟨.critical,
        "🔴 Setting data.engine to \x27none\x27 will DELETE all data (irreversible!)",
        "spec.data.engine"⟩] ∧
    check_data_changes (dataEngineSpec (.str "postgres"))
        (dataEngineSpec (.str "mysql")) =
      .ok [⟨.critical,
        "🔴 Changing data.engine from \x27postgres\x27 to \x27mysql\x27 requires manual data migration",
        "spec.data.engine"⟩] ∧
    check_data_changes (dataEngineSpec (.str "none"))
        (dataEngineSpec (.str "postgres")) = .ok [] :=
  ⟨C4_engine_transitions.1 "postgres" (by decide) (by decide),
   by
     have h := C4_engine_transitions.2.2.1 "postgres" "mysql"
       (by decide) (by decide) (by decide) (by decide) (by decide)
     exact h,
   (C4_engine_transitions.2.2.2 (.str "postgres")).1⟩

/-- C5: removing members from a set-valued field (security WAF rulesets,
network subnets) yields exactly one warning for that field, whose message
joins every removed member (sorted, comma-separated) — never one warning
per member. -/
theorem C5_set_removals :
    (∀ olds news : List String, (∃ m, m ∈ olds ∧ m ∉ news) →
      ∃ joined : List String,
        check_security_changes (rulesetsSpec olds) (rulesetsSpec news) =
          .ok [⟨.warning, "⚠️ Removing WAF rulesets: " ++
            String.intercalate ", " joined, "spec.security.waf.rulesets"⟩] ∧
        ∀ m : String, m ∈ joined ↔ (m ∈ olds ∧ m ∉ news)) ∧
    (∀ olds news : List String, (∃ m, m ∈ olds ∧ m ∉ news) →
      ∃ joined : List String,
        check_network_changes (subnetsSpec olds) (subnetsSpec news) =
          .ok [⟨.warning, "⚠️ Removing subnets: " ++
            String.intercalate ", " joined, "spec.network.subnets"⟩] ∧
        ∀ m : String, m ∈ joined ↔ (m ∈ olds ∧ m ∉ news)) := by
  constructor
  · rintro olds news ⟨m0, hm0, hm0n⟩
    obtain ⟨rs, hmem, heval⟩ := secRulesets_eval olds news
    have hm0rs : m0 ∈ rs := (hmem m0).mpr ⟨hm0, hm0n⟩
    have hne : rs.isEmpty = false := by
      cases hrs : rs with
      | nil => rw [hrs] at hm0rs; exact absurd hm0rs (List.not_mem_nil m0)
      | cons a as => rfl
    rw [hne] at heval
    simp only [Bool.false_eq_true, if_false] at heval
    refine ⟨pySortStrings rs,
      check_security_rulesets_only olds news _ heval, fun m => ?_⟩
    rw [mem_pySortStrings, hmem m]
  · rintro olds news ⟨m0, hm0, hm0n⟩
    obtain ⟨rs, hmem, heval⟩ := netSubnets_eval olds news
    have hm0rs : m0 ∈ rs := (hmem m0).mpr ⟨hm0, hm0n⟩
    have hne : rs.isEmpty = false := by
      cases hrs : rs with
      | nil => rw [hrs] at hm0rs; exact absurd hm0rs (List.not_mem_nil m0)
      | cons a as => rfl
    rw [hne] at heval
    simp only [Bool.false_eq_true, if_false] at heval
    refine ⟨pySortStrings rs,
      check_network_subnets_only olds news _ heval, fun m => ?_⟩
    rw [mem_pySortStrings, hmem m]

/-- C5 witness: removing a and b from the ruleset \x7ba, b, c\x7d yields one
WARNING naming both. -/
theorem C5_set_removals_witness :
    ∃ joined : List String,
      check_security_changes (rulesetsSpec ["a", "b", "c"]) (rulesetsSpec ["c"]) =
        .ok [⟨.warning, "⚠️ Removing WAF rulesets: " ++
          String.intercalate ", " joined, "spec.security.waf.rulesets"⟩] ∧
      ∀ m : String, m ∈ joined ↔ (m ∈ ["a", "b", "c"] ∧ m ∉ ["c"]) :=
  C5_set_removals.1 ["a", "b", "c"] ["c"] ⟨"a", by decide, by decide⟩

/-- C8 counterexample: the path "specs/.." traverses to the parent
directory but contains neither "../" nor ".\\", so `fetch_spec_file`
does not reject it and proceeds to fetch successfully. -/
theorem C8_counterexample :
    hasTraversal "specs/.." = false ∧
    fetch_spec_file plainFetchEnv "o/r" "specs/.." "main" = (.ok "content", []) :=
  ⟨rfl, rfl⟩

/-- C8 (amended): before any remote fetch is attempted, `fetch_spec_file`
rejects with `ValueError` every path containing "../" or ".\\" (the latter
covers every "..\\"-separated traversal); a path whose only traversal is a
trailing ".." with no separator is not rejected. -/
theorem C8_traversal_paths (env : FetchEnv) (repo path ref : String)
    (h : hasTraversal path = true)
    (hw : validateRepositoryWhitelist env repo = .ok ()) :
    (fetch_spec_file env repo path ref =
      (.error (.valueError
        ("Invalid file path (directory traversal detected): " ++ path)), [])) ∧
    (∀ p : String, decide ("..\\".toList <:+: p.toList) = true →
        hasTraversal p = true) := by
  constructor
  · unfold fetch_spec_file
    rw [hw]
    simp [h]
  · intro p hp
    have h1 : (".\\".toList <:+: p.toList) := by
      refine List.IsInfix.trans ?_ (of_decide_eq_true hp)
      decide
    unfold hasTraversal
    rw [decide_eq_true h1]
    simp

/-- C8 witness: the path "a/../b" is rejected before any fetch, for an
environment whose remote would succeed immediately. -/
theorem C8_traversal_paths_witness :
    fetch_spec_file plainFetchEnv "o/r" "a/../b" "main" =
      (.error (.valueError
        "Invalid file path (directory traversal detected): a/../b"), []) :=
  (C8_traversal_paths plainFetchEnv "o/r" "a/../b" "main" rfl rfl).1

/-- C7: under any passing allowlist/path/auth checks, two rate-limit
responses followed by success produce exactly the backoff sleeps [1, 2] and
return the third attempt's content; a missing repository, missing file, or
unclassified error on the first attempt propagates with no sleep at all;
four consecutive rate-limit responses exhaust the retries with sleeps
[1, 2, 4] and raise `RateLimitError` carrying `max(resetDelay, 0)`, which
equals the remote-reported reset delay whenever that delay is
non-negative. -/
theorem C7_rate_limit_retry (env : FetchEnv) (repo path ref : String)
    (hw : validateRepositoryWhitelist env repo = .ok ())
    (htr : hasTraversal path = false)
    (ha : env.authFailure = none) :
    (∀ c, env.attempts 0 = .rateLimited → env.attempts 1 = .rateLimited →
        env.attempts 2 = .ok c →
        fetch_spec_file env repo path ref = (.ok c, [1, 2])) ∧
    (env.attempts 0 = .repoMissing →
        fetch_spec_file env repo path ref = (.error (.repoNotFound repo), [])) ∧
    (env.attempts 0 = .fileMissing →
        fetch_spec_file env repo path ref =
          (.error (.fileNotFound repo path ref), [])) ∧
    (∀ n m, env.attempts 0 = .otherError n m →
        fetch_spec_file env repo path ref =
          (.error (.gitHubError ("Failed to fetch file: " ++ n ++ ": " ++ m)), [])) ∧
    ((∀ i, i ≤ 3 → env.attempts i = .rateLimited) →
        fetch_spec_file env repo path ref =
          (.error (.rateLimit (max env.resetDelay 0)), [1, 2, 4])) ∧
    (0 ≤ env.resetDelay → max env.resetDelay 0 = env.resetDelay) := by
  have hbase : fetch_spec_file env repo path ref =
      fetchLoop env repo path ref (MAX_RETRIES + 1) 0 := by
    unfold fetch_spec_file
    rw [hw]
    simp only [htr, Bool.false_eq_true, if_false, ha]
  refine ⟨?_, ?_, ?_, ?_, ?_, ?_⟩
  · intro c h0 h1 h2
    rw [hbase]
    simp [fetchLoop, h0, h1, h2, MAX_RETRIES, INITIAL_BACKOFF, BACKOFF_MULTIPLIER]
  · intro h0
    rw [hbase]
    simp [fetchLoop, h0]
  · intro h0
    rw [hbase]
    simp [fetchLoop, h0]
  · intro n m h0
    rw [hbase]
    simp [fetchLoop, h0]
  · intro hall
    rw [hbase]
    simp [fetchLoop, hall 0 (by omega), hall 1 (by omega), hall 2 (by omega),
      hall 3 (by omega), MAX_RETRIES, INITIAL_BACKOFF, BACKOFF_MULTIPLIER]
  · intro hd
    exact max_eq_left hd

/-- C7 witness: two injected rate limits then success return the content
after sleeps [1, 2]; a fully rate-limited remote exhausts with sleeps
[1, 2, 4] carrying the 30-second reset delay. -/
theorem C7_rate_limit_retry_witness :
    fetch_spec_file retryTwiceEnv "o/r" "specs/app.yml" "main" =
      (.ok "kind: WebApplication", [1, 2]) ∧
    fetch_spec_file exhaustedEnv "o/r" "specs/app.yml" "main" =
      (.error (.rateLimit 30), [1, 2, 4]) := by
  constructor
  · exact (C7_rate_limit_retry retryTwiceEnv "o/r" "specs/app.yml" "main"
      rfl rfl rfl).1 "kind: WebApplication" rfl rfl rfl
  · have h := (C7_rate_limit_retry exhaustedEnv "o/r" "specs/app.yml" "main"
      rfl rfl rfl).2.2.2.2.1 (fun i _ => rfl)
    simpa using h

/-- C1 (code bug): handler.py line 122 intends to map a missing old spec
to 404 — its branch builds the 404 "Spec file not found" body, and
test_spec_applier.py asserts 404 for that scenario — but because
github_client.FileNotFoundError is never imported, the `except` clause
names the Python builtin, and the client's exception (a `GitHubError`
subclass) falls to the line-222 `GitHubError` handler.  So both a missing
spec file and a missing repository return 502, never 404; the dead 404
branch fires only for the builtin exception, which `fetch_spec_file` never
raises (the unit test passes only because it injects the builtin). -/
theorem C1_file_not_found_bug :
    lambda_handler fileMissingEnv =
      .failure 502 "GitHub API error"
        "File not found: specs/app.spec.yml in acme/app (ref: main)" ∧
    (lambda_handler fileMissingEnv).status ≠ 404 ∧
    lambda_handler repoMissingEnv =
      .failure 502 "GitHub API error"
        "Repository not found or inaccessible: acme/app" ∧
    (lambda_handler repoMissingEnv).status ≠ 404 ∧
    lambda_handler builtinFileMissingEnv =
      .failure 404 "Spec file not found"
        "File \x27specs/app.spec.yml\x27 not found in acme/app" := by
  refine ⟨rfl, ?_, rfl, ?_, rfl⟩
  · have h : (lambda_handler fileMissingEnv).status = 502 := rfl
    rw [h]
    decide
  · have h : (lambda_handler repoMissingEnv).status = 502 := rfl
    rw [h]
    decide

/-- C6: for every abstract YAML parser, `parse_yaml` rejects any text
longer than `MAX_DOC_SIZE` code points with the "oversized" `SecurityError`
without consulting the parser and regardless of any dangerous tag in the
text (the size check runs first); and within the size bound it rejects any
text containing a dangerous tag marker anywhere with a dangerous-tag
`SecurityError`, again without consulting the parser.  Neither rejection is
a `ParseError`. -/
theorem C6_preparse_rejections :
    (∀ (yamlParse : String → YamlOutcome) (content : String),
        content.length > MAX_DOC_SIZE →
        parse_yaml yamlParse content =
          .securityError "oversized"
            ("Document too large (" ++ toString content.length ++
              " bytes, max " ++ toString MAX_DOC_SIZE ++ ")")) ∧
    (∀ (yamlParse : String → YamlOutcome) (content : String),
        content.length ≤ MAX_DOC_SIZE →
        (∃ t ∈ dangerous_tags, containsTag content t = true) →
        ∃ tag, tag ∈ dangerous_tags ∧ containsTag content tag = true ∧
          parse_yaml yamlParse content =
            .securityError tag "Dangerous YAML tag detected") := by
  constructor
  · intro yamlParse content h
    unfold parse_yaml
    rw [if_pos h]
  · intro yamlParse content hsz hex
    have hsome : (dangerous_tags.find? (fun t => containsTag content t)).isSome := by
      rw [List.find?_isSome]
      exact hex
    obtain ⟨tag, hfind⟩ := Option.isSome_iff_exists.mp hsome
    refine ⟨tag, List.mem_of_find?_eq_some hfind,
      List.find?_some hfind, ?_⟩
    unfold parse_yaml
    rw [if_neg (by omega), hfind]

/-- C6 witness: the 1,048,577-character document is rejected as oversized
for a parser that would succeed; a document carrying the
`!!python/object` marker is rejected as a dangerous tag. -/
theorem C6_preparse_rejections_witness :
    parse_yaml (fun _ => .ok (.dict [])) oversizedDoc =
      .securityError "oversized"
        "Document too large (1048577 bytes, max 1048576)" ∧
    (∃ tag, tag ∈ dangerous_tags ∧
      containsTag "kind: !!python/object:os.system" tag = true ∧
      parse_yaml (fun _ => .ok (.dict []))
          "kind: !!python/object:os.system" =
        .securityError tag "Dangerous YAML tag detected") := by
  refine ⟨?_, ?_⟩
  · have hlen : oversizedDoc.length = 1048577 := by
      rw [oversizedDoc]
      rw [show (String.mk (List.replicate 1048577 'a')).length =
        (List.replicate 1048577 'a').length from rfl]
      exact List.length_replicate 1048577 'a'
    have h := C6_preparse_rejections.1 (fun _ => .ok (.dict []))
      oversizedDoc (by rw [hlen]; decide)
    rw [hlen] at h
    exact h
  · exact C6_preparse_rejections.2 (fun _ => .ok (.dict []))
      "kind: !!python/object:os.system" (by decide)
      ⟨"!!python/object", by decide, by decide⟩

/-- C2 witness: the amended theorem applied to concrete empty specs. -/
theorem C2_absent_old_subtree_witness :
    check_compute_changes (Val.dict []) (Val.dict []) = .ok [] ∧
    check_data_changes (Val.dict []) (Val.dict []) = .ok [] ∧
    check_network_changes (Val.dict []) (Val.dict []) = .ok [] :=
  ⟨C2_absent_old_subtree.1 (Val.dict []) (Val.dict [])
      (Val.dict []) (Val.dict []) rfl rfl rfl,
   C2_absent_old_subtree.2.1 (Val.dict []) (Val.dict [])
      (Val.dict []) (Val.dict []) rfl rfl rfl,
   C2_absent_old_subtree.2.2 (Val.dict []) (Val.dict [])
      (Val.dict []) (Val.dict []) rfl rfl rfl⟩

end ActionSpec
